import Mathlib

/-!
# AsFem: Miehe phase-field material and the SNES nonlinear driver

A shallow embedding of

* `src/MateSystem/MieheLinearElasticMaterial.cpp` (`MateSystem::MieheLinearElasticMaterial`),
* `src/NonlinearSolver/SSolve.cpp` (`Monitor`, `NonlinearSolver::SSolve`).

Conventions of the embedding.

* A C++ `double` is an element of a linearly ordered field `K`: rounding is not represented.
  The definitions and theorems hold for every such field; concrete inputs are evaluated in
  `ℚ`, and the spectral decomposition of an arbitrary symmetric tensor is shown to exist in
  `ℝ` (`exists_isSpectralProjection_real`).
* Infinities and NaN are not elements of `K`.  The only divisions of the evaluator are those
  of lines 73-74; a call in which one of their divisors is zero has the outcome `nonFinite`
  (`lameOutcome`), and the values the embedding reports for such a call are not the
  source's.
* `vector<double>` arguments that are only indexed (`gpU`, `gpHist`, `gpHistOld`, `gpGradU`)
  are index-to-value maps; `InputParams`, whose size the code inspects, is a list.
* The material banks `_ScalarMaterials`, `_Rank2Materials`, `_Rank4Materials` are
  index-to-value maps, a write is `Function.update`.
* Tensor components are indexed from `0` (the source writes `(1,1)` for component `0 0`).
* The tensor classes, `Msg_AsFem_Exit`, `MonitorCtx` and the PETSc engine are not part of the
  two source files; each such definition says so in its doc comment.
-/

namespace AsFem

open Finset

/-! ## Tensor algebra used by the evaluator -/

/-- Modelled from the spec: the `Vector3d` type (three components), whose declaration is
missing from the sources. -/
abbrev Vector3d (K : Type) := Fin 3 → K

/-- Modelled from the spec: the `RankTwoTensor` type, a 3×3 array of components
("conceptually always 3×3 with 2D embedding"); its declaration is missing from the sources. -/
abbrev RankTwoTensor (K : Type) := Fin 3 → Fin 3 → K

/-- Modelled from the spec: the `RankFourTensor` type, a 3×3×3×3 array of components; its
declaration is missing from the sources. -/
abbrev RankFourTensor (K : Type) := Fin 3 → Fin 3 → Fin 3 → Fin 3 → K

variable {K : Type} [LinearOrderedField K]

namespace RankTwoTensor

/-- Modelled from the spec: `RankTwoTensor::SetFromGradU(gradUx,gradUy)`, missing from the
sources; the displacement gradient of a 2D problem, embedded in 3×3. -/
def SetFromGradU2 (gradUx gradUy : Vector3d K) : RankTwoTensor K := fun i j =>
  if j = 2 then 0 else if i = 0 then gradUx j else if i = 1 then gradUy j else 0

/-- Modelled from the spec: `RankTwoTensor::SetFromGradU(gradUx,gradUy,gradUz)`, missing from
the sources; row `i` is the gradient of displacement component `i`. -/
def SetFromGradU3 (gradUx gradUy gradUz : Vector3d K) : RankTwoTensor K := fun i j =>
  if i = 0 then gradUx j else if i = 1 then gradUy j else gradUz j

/-- Modelled from the spec: `RankTwoTensor::Transpose`, missing from the sources. -/
def Transpose (A : RankTwoTensor K) : RankTwoTensor K := fun i j => A j i

/-- Modelled from the spec: `RankTwoTensor::Trace`, missing from the sources. -/
def Trace (A : RankTwoTensor K) : K := ∑ i, A i i

/-- Modelled from the spec: `RankTwoTensor::DoubleDot`, the double contraction
`A:B = Σ A_ij B_ij`, missing from the sources. -/
def DoubleDot (A B : RankTwoTensor K) : K := ∑ i, ∑ j, A i j * B i j

/-- Modelled from the spec: `RankTwoTensor::operator*(RankTwoTensor)`, the product of two
tensors `(A*B)_ij = Σ_k A_ik B_kj`, missing from the sources. -/
def mul (A B : RankTwoTensor K) : RankTwoTensor K := fun i j => ∑ k, A i k * B k j

/-- Modelled from the spec: `RankTwoTensor::operator*(double)`, tensor times scalar, missing
from the sources. -/
def scale (A : RankTwoTensor K) (c : K) : RankTwoTensor K := fun i j => A i j * c

/-- Modelled from the spec: `RankTwoTensor::CrossDot`, the dyadic product
`(A⊗B)_ijkl = A_ij B_kl`, missing from the sources. -/
def CrossDot (A B : RankTwoTensor K) : RankFourTensor K := fun i j k l => A i j * B k l

/-- Modelled from the spec: the tensor produced by `RankTwoTensor::SetToIdentity`, missing
from the sources. -/
def SetToIdentity : RankTwoTensor K := fun i j => if i = j then 1 else 0

/-- Modelled from the spec: the tensor produced by `RankTwoTensor::SetToZeros` and by the
constructor `RankTwoTensor(0.0)`, missing from the sources. -/
def SetToZeros : RankTwoTensor K := fun _ _ => 0

end RankTwoTensor

namespace RankFourTensor

/-- Modelled from the spec: `RankFourTensor::operator*(double)`, missing from the sources. -/
def scale (C : RankFourTensor K) (c : K) : RankFourTensor K := fun i j k l => C i j k l * c

/-- Modelled from the spec: `RankFourTensor::DoubleDot(RankTwoTensor)`,
`(C:A)_ij = Σ_kl C_ijkl A_kl`, missing from the sources. -/
def DoubleDot (C : RankFourTensor K) (A : RankTwoTensor K) : RankTwoTensor K :=
  fun i j => ∑ k, ∑ l, C i j k l * A k l

/-- Modelled from the spec: `RankFourTensor::DoubleDot(RankFourTensor)`,
`(A:B)_ijkl = Σ_mn A_ijmn B_mnkl`, missing from the sources. -/
def DoubleDot4 (A B : RankFourTensor K) : RankFourTensor K :=
  fun i j k l => ∑ m, ∑ n, A i j m n * B m n k l

/-- Modelled from the spec: the tensor `RankFourTensor(RankFourTensor::InitIdentitySymmetric4)`,
the symmetric fourth-order identity, missing from the sources. -/
def InitIdentitySymmetric4 : RankFourTensor K := fun i j k l =>
  ((if i = k then 1 else 0) * (if j = l then 1 else 0)
    + (if i = l then 1 else 0) * (if j = k then 1 else 0)) / 2

/-- Modelled from the spec: the tensor `RankFourTensor(0.0)`, missing from the sources. -/
def SetToZeros : RankFourTensor K := fun _ _ _ _ => 0

/-- Modelled from the spec: `RankFourTensor::SetFromEandNu`, the isotropic linear-elastic
stiffness with the Lamé parameters derived from `E` and `nu`, missing from the sources.  The
quotients are those of the field `K`; their divisors are the ones of lines 73-74 of the
evaluator, and a zero divisor is reported by `lameOutcome`. -/
def SetFromEandNu (EE nu : K) : RankFourTensor K := fun i j k l =>
  EE * nu / ((1 + nu) * (1 - 2 * nu)) * ((if i = j then 1 else 0) * (if k = l then 1 else 0))
    + EE / (2 * (1 + nu)) * ((if i = k then 1 else 0) * (if j = l then 1 else 0)
        + (if i = l then 1 else 0) * (if j = k then 1 else 0))

end RankFourTensor

/-- What `RankTwoTensor::CalcPostiveProjTensor(eigval,eigvec)` hands back: the returned
projection tensor and the two output arguments.  Column `a` of `eigvec` is the eigenvector
of `eigval a`. -/
structure SpectralResult (K : Type) where
  ProjPos : RankFourTensor K
  eigval : Fin 3 → K
  eigvec : RankTwoTensor K

/-- Modelled from the spec: the positive part `A+` of a tensor with the given eigenvalues and
eigenvectors, which "retains only the non-negative-eigenvalue subspace". -/
def SpectralResult.PositivePart (r : SpectralResult K) : RankTwoTensor K :=
  fun i j => ∑ a, max (r.eigval a) 0 * (r.eigvec i a * r.eigvec j a)

/-- Modelled from the spec: the contract of `RankTwoTensor::CalcPostiveProjTensor`, missing
from the sources: "spectral decomposition that returns eigenvalues and eigenvectors and
constructs the positive-part projection tensor `P+` such that `A+ = P+ : A` retains only the
non-negative-eigenvalue subspace of `A`". -/
structure IsSpectralProjection (A : RankTwoTensor K) (r : SpectralResult K) : Prop where
  orthonormal : ∀ a b, ∑ i, r.eigvec i a * r.eigvec i b = if a = b then 1 else 0
  decomposition : ∀ i j, A i j = ∑ a, r.eigval a * (r.eigvec i a * r.eigvec j a)
  positive_part : RankFourTensor.DoubleDot r.ProjPos A = r.PositivePart

/-- Modelled from the spec: the contract of `RankTwoTensor::CalcPostiveProjTensor` as a
property of the function: on every symmetric tensor its result is the spectral decomposition
with the positive-part projection. -/
def MeetsSpectralContract (CalcPostiveProjTensor : RankTwoTensor K → SpectralResult K) : Prop :=
  ∀ A : RankTwoTensor K, (∀ i j, A i j = A j i) →
    IsSpectralProjection A (CalcPostiveProjTensor A)

/-- Modelled from the spec: a spectral decomposition for tensors that are diagonal in the
coordinate axes (eigenvectors are the axes, eigenvalues the diagonal entries); the projection
keeps the axes whose eigenvalue is positive.  Used to evaluate the evaluator on concrete
diagonal strains. -/
def axisSpectral (A : RankTwoTensor K) : SpectralResult K where
  ProjPos := fun i j k l => if i = j ∧ j = k ∧ k = l ∧ 0 < A i i then 1 else 0
  eigval := fun a => A a a
  eigvec := RankTwoTensor.SetToIdentity

/-! ## The material evaluator -/

/-- The conversion `int(x)` of a `double`: truncation towards zero. -/
def truncToInt [FloorRing K] (x : K) : ℤ := if 0 ≤ x then ⌊x⌋ else ⌈x⌉

/-- The three material banks of `MateSystem` written by the evaluator. -/
structure MateSystem (K : Type) where
  _ScalarMaterials : ℕ → K
  _Rank2Materials : ℕ → RankTwoTensor K
  _Rank4Materials : ℕ → RankFourTensor K

/-- The arguments of `MieheLinearElasticMaterial` that the body reads (`t`, `dt`, `gpCoord`,
`gpV`, `gpGradV` are unused by it). -/
structure GaussPoint (K : Type) where
  nDim : ℕ
  InputParams : List K
  gpU : ℕ → K
  gpGradU : ℕ → Vector3d K
  gpHistOld : ℕ → K

/-- The local variables of the evaluator after the decomposition branch (line 188), together
with the banks as written so far. -/
structure Frame (K : Type) where
  mate : MateSystem K
  Strain : RankTwoTensor K
  StrainPos : RankTwoTensor K
  StrainNeg : RankTwoTensor K
  Stress : RankTwoTensor K
  StressPos : RankTwoTensor K
  StressNeg : RankTwoTensor K
  ProjPos : RankFourTensor K
  ProjNeg : RankFourTensor K
  StrainTrace : K
  TrPos : K
  TrNeg : K
  d : K
  SignPos : K
  SignNeg : K
  Psi : K
  PsiPos : K
  PsiNeg : K

/-- Lines 34-43: the parsed staggered flag.  Whatever the inner test assigns, line 42
assigns `0` afterwards. -/
def parseUseHist [FloorRing K] (InputParams : List K) : ℤ :=
  let UseHist : ℤ := 0
  if InputParams.length ≥ 6 then
    let UseHist : ℤ :=
      if truncToInt (InputParams.getD (6 - 1) 0) = 1 then 1
      else if truncToInt (InputParams.getD (6 - 1) 0) = 0 then 0
      else UseHist
    let _unused := UseHist
    0
  else UseHist

/-- Lines 48-56: the decomposition mode. -/
def parseDecompositionMode [FloorRing K] (InputParams : List K) : ℤ :=
  let DecompositionMode : ℤ := 0
  if InputParams.length ≥ 7 then
    if truncToInt (InputParams.getD (7 - 1) 0) = 0 then 0 else 1
  else DecompositionMode

/-- Line 73: the first Lamé constant.  The quotient is the one of the field `K`; a zero
divisor (`nu = 1/2` or `nu = -1`), where the C++ quotient is not a finite number, is reported
by `lameOutcome`. -/
def lameLambda (EE nu : K) : K := EE * nu / ((1 + nu) * (1 - 2 * nu))

/-- Line 74: the shear modulus.  A zero divisor (`nu = -1`) is reported by `lameOutcome`. -/
def lameMu (EE nu : K) : K := EE / (2 * (1 + nu))

/-- Line 107: the residual stiffness `k`. -/
def kResidual : K := 1 / 1000

/-- Lines 130-132 and 169-171: the damage value read from the solution and clamped. -/
def clampDamage (u : K) : K :=
  let d := u
  let d := if d < 1 / 100 then 1 / 100 else d
  let d := if d > 1 - 1 / 100 then 1 - 1 / 100 else d
  d

/-- The stress degradation factor `(1-d)*(1-d)+k` of lines 134, 143, 180 and 186. -/
def degradation (d : K) : K := (1 - d) * (1 - d) + kResidual

/-- Lines 76-110: the first three scalar writes, the strain from the displacement gradient,
and the declared locals.  The scalars `StrainTrace`, `TrPos`, `TrNeg`, `d`, `SignPos`,
`SignNeg`, `Psi`, `PsiPos`, `PsiNeg` are declared without a value in the source; the
embedding starts them at `0`. -/
def setupFrame (p : GaussPoint K) (self : MateSystem K) : Frame K :=
  let S := self._ScalarMaterials
  let S := Function.update S 0 (p.InputParams.getD 4 0)
  let S := Function.update S 1 (p.InputParams.getD 2 0)
  let S := Function.update S 2 (p.InputParams.getD 3 0)
  let R2 := self._Rank2Materials
  let R2 := if p.nDim = 2 then
      Function.update R2 2 (RankTwoTensor.SetFromGradU2 (p.gpGradU 0) (p.gpGradU 1))
    else
      Function.update R2 2 (RankTwoTensor.SetFromGradU3 (p.gpGradU 0) (p.gpGradU 1) (p.gpGradU 2))
  let Strain : RankTwoTensor K := RankTwoTensor.scale (R2 2 + RankTwoTensor.Transpose (R2 2)) (1 / 2)
  let R2 := Function.update R2 0 Strain
  { mate := { _ScalarMaterials := S, _Rank2Materials := R2,
              _Rank4Materials := self._Rank4Materials }
    Strain := Strain
    StrainPos := RankTwoTensor.SetToZeros
    StrainNeg := RankTwoTensor.SetToZeros
    Stress := RankTwoTensor.SetToZeros
    StressPos := RankTwoTensor.SetToZeros
    StressNeg := RankTwoTensor.SetToZeros
    ProjPos := RankFourTensor.SetToZeros
    ProjNeg := RankFourTensor.SetToZeros
    StrainTrace := 0
    TrPos := 0
    TrNeg := 0
    d := 0
    SignPos := 0
    SignNeg := 0
    Psi := 0
    PsiPos := 0
    PsiNeg := 0 }

/-- Lines 113-150: the strain-based decomposition branch. -/
def strainDecomposition (CalcPostiveProjTensor : RankTwoTensor K → SpectralResult K)
    (lambda mu : K) (p : GaussPoint K) (f : Frame K) : Frame K :=
  let Strain := f.Strain
  let I4Sym := RankFourTensor.InitIdentitySymmetric4
  let k := kResidual
  let ProjPos := (CalcPostiveProjTensor Strain).ProjPos
  let ProjNeg := I4Sym - ProjPos
  let StrainPos := RankFourTensor.DoubleDot ProjPos Strain
  let StrainNeg := Strain - StrainPos
  let StrainTrace := RankTwoTensor.Trace Strain
  let TrPos := (|StrainTrace| + StrainTrace) * (1 / 2)
  let TrNeg := -(|StrainTrace| - StrainTrace) * (1 / 2)
  let I := RankTwoTensor.SetToIdentity
  let StressPos := RankTwoTensor.scale (RankTwoTensor.scale I lambda) TrPos
    + RankTwoTensor.scale (RankTwoTensor.scale StrainPos 2) mu
  let StressNeg := RankTwoTensor.scale (RankTwoTensor.scale I lambda) TrNeg
    + RankTwoTensor.scale (RankTwoTensor.scale StrainNeg 2) mu
  let d := clampDamage (p.gpU p.nDim)
  let Stress := ((1 - d) * (1 - d) + k) • StressPos + StressNeg
  let R2 := f.mate._Rank2Materials
  let R2 := Function.update R2 1 Stress
  let R2 := Function.update R2 2 ((-2 + 2 * d) • StressPos)
  let SignPos : K := if StrainTrace ≥ 0 then 1 else 0
  let SignNeg : K := if StrainTrace ≤ 0 then 1 else 0
  let II := RankTwoTensor.CrossDot I I
  let R4 := Function.update f.mate._Rank4Materials 0
    (RankFourTensor.scale
        (RankFourTensor.scale (RankFourTensor.scale II lambda) SignPos
          + RankFourTensor.scale (RankFourTensor.scale ProjPos 2) mu)
        ((1 - d) * (1 - d) + k)
      + (RankFourTensor.scale (RankFourTensor.scale II lambda) SignNeg
          + RankFourTensor.scale (RankFourTensor.scale ProjNeg 2) mu))
  let PsiPos := 1 / 2 * lambda * TrPos * TrPos
    + mu * RankTwoTensor.Trace (RankTwoTensor.mul StrainPos StrainPos)
  let PsiNeg := 1 / 2 * lambda * TrNeg * TrNeg
    + mu * RankTwoTensor.Trace (RankTwoTensor.mul StrainNeg StrainNeg)
  let Psi := (1 - d) * (1 - d) * PsiPos + PsiNeg
  { f with
    mate := { f.mate with _Rank2Materials := R2, _Rank4Materials := R4 }
    StrainPos := StrainPos
    StrainNeg := StrainNeg
    Stress := Stress
    StressPos := StressPos
    StressNeg := StressNeg
    ProjPos := ProjPos
    ProjNeg := ProjNeg
    StrainTrace := StrainTrace
    TrPos := TrPos
    TrNeg := TrNeg
    d := d
    SignPos := SignPos
    SignNeg := SignNeg
    Psi := Psi
    PsiPos := PsiPos
    PsiNeg := PsiNeg }

/-- Lines 153-186: the stress-based decomposition branch. -/
def stressDecomposition (CalcPostiveProjTensor : RankTwoTensor K → SpectralResult K)
    (EE nu : K) (p : GaussPoint K) (f : Frame K) : Frame K :=
  let Strain := f.Strain
  let I4Sym := RankFourTensor.InitIdentitySymmetric4
  let k := kResidual
  let ElasticityTensor := RankFourTensor.SetFromEandNu EE nu
  let Stress := RankFourTensor.DoubleDot ElasticityTensor Strain
  let ProjPos := (CalcPostiveProjTensor Stress).ProjPos
  let ProjNeg := I4Sym - ProjPos
  let StressPos := RankFourTensor.DoubleDot ProjPos Stress
  let StressNeg := Stress - StressPos
  let d := clampDamage (p.gpU p.nDim)
  let PsiPos := 1 / 2 * RankTwoTensor.DoubleDot StressPos Strain
  let PsiNeg := 1 / 2 * RankTwoTensor.DoubleDot StressNeg Strain
  let Psi := (1 - d) * (1 - d) * PsiPos + PsiNeg
  let R2 := f.mate._Rank2Materials
  let R2 := Function.update R2 1
    (RankTwoTensor.scale StressPos ((1 - d) * (1 - d) + k) + StressNeg)
  let R2 := Function.update R2 2 (RankTwoTensor.scale StressPos (-2 + 2 * d))
  let R4 := Function.update f.mate._Rank4Materials 0
    (RankFourTensor.DoubleDot4 (I4Sym + ((1 - d) * (1 - d) + k) • ProjPos) ElasticityTensor)
  { f with
    mate := { f.mate with _Rank2Materials := R2, _Rank4Materials := R4 }
    Stress := Stress
    StressPos := StressPos
    StressNeg := StressNeg
    ProjPos := ProjPos
    ProjNeg := ProjNeg
    d := d
    Psi := Psi
    PsiPos := PsiPos
    PsiNeg := PsiNeg }

/-- Lines 112-187: the dispatch on `DecompositionMode`.  A mode other than `0` and `1` runs
neither branch. -/
def decompose (CalcPostiveProjTensor : RankTwoTensor K → SpectralResult K)
    (DecompositionMode : ℤ) (p : GaussPoint K) (f : Frame K) : Frame K :=
  let EE := p.InputParams.getD 0 0
  let nu := p.InputParams.getD 1 0
  if DecompositionMode = 0 then
    strainDecomposition CalcPostiveProjTensor (lameLambda EE nu) (lameMu EE nu) p f
  else if DecompositionMode = 1 then
    stressDecomposition CalcPostiveProjTensor EE nu p f
  else f

/-- The frame at line 188 for an accepted parameter list. -/
def frameAfterDecomposition [FloorRing K] (CalcPostiveProjTensor : RankTwoTensor K → SpectralResult K)
    (p : GaussPoint K) (self : MateSystem K) : Frame K :=
  decompose CalcPostiveProjTensor (parseDecompositionMode p.InputParams) p (setupFrame p self)

/-- Lines 192-200: the history update; returns the new `_Rank2Materials` and `gpHist`. -/
def historyUpdate (f : Frame K) (gpHistOld : ℕ → K) (gpHist : ℕ → K) :
    (ℕ → RankTwoTensor K) × (ℕ → K) :=
  let R2 := Function.update f.mate._Rank2Materials 3 RankTwoTensor.SetToZeros
  if f.PsiPos ≥ gpHistOld 0 then
    (Function.update R2 3 f.StressPos, Function.update gpHist 0 f.PsiPos)
  else
    (Function.update R2 3 RankTwoTensor.SetToZeros, Function.update gpHist 0 (gpHistOld 0))

/-- Lines 203-212: the driving energy and derivative tensor exposed to the assembler. -/
def exposeHistory (UseHist : ℤ) (S : ℕ → K) (R2 : ℕ → RankTwoTensor K)
    (gpHistOld gpHist : ℕ → K) : (ℕ → K) × (ℕ → RankTwoTensor K) :=
  if UseHist ≠ 0 then
    (Function.update S 20 (gpHistOld 0), Function.update R2 5 RankTwoTensor.SetToZeros)
  else
    (Function.update S 20 (gpHist 0), Function.update R2 5 (R2 3))

/-- Lines 216-262: the observational scalars (von Mises stress, hydrostatic stress, stress and
strain components, energies).  `sqrt` is the library square root. -/
def diagnostics (sqrt : K → K) (nDim : ℕ) (Psi PsiPos PsiNeg : K)
    (S : ℕ → K) (R2 : ℕ → RankTwoTensor K) : (ℕ → K) × (ℕ → RankTwoTensor K) :=
  let T4 : RankTwoTensor K := R2 1
  let T4 := Function.update T4 0 (Function.update (T4 0) 0 (T4 0 0 - 1 / 3 * RankTwoTensor.Trace (R2 1)))
  let T4 := Function.update T4 1 (Function.update (T4 1) 1 (T4 1 1 - 1 / 3 * RankTwoTensor.Trace (R2 1)))
  let T4 := Function.update T4 2 (Function.update (T4 2) 2 (T4 2 2 - 1 / 3 * RankTwoTensor.Trace (R2 1)))
  let R2 := Function.update R2 4 T4
  let S := Function.update S 3 (sqrt (3 / 2 * RankTwoTensor.DoubleDot (R2 4) (R2 4)))
  let S := Function.update S 4 (RankTwoTensor.Trace (R2 1) / 3)
  if nDim = 2 then
    let S := Function.update S 5 (R2 1 0 0)
    let S := Function.update S 6 (R2 1 1 1)
    let S := Function.update S 7 (R2 1 0 1)
    let S := Function.update S 8 (R2 0 0 0)
    let S := Function.update S 9 (R2 0 1 1)
    let S := Function.update S 10 (R2 0 0 1)
    let S := Function.update S 11 Psi
    let S := Function.update S 12 PsiPos
    let S := Function.update S 13 PsiNeg
    (S, R2)
  else if nDim = 3 then
    let S := Function.update S 5 (R2 1 0 0)
    let S := Function.update S 6 (R2 1 1 1)
    let S := Function.update S 7 (R2 1 2 2)
    let S := Function.update S 8 (R2 1 1 2)
    let S := Function.update S 9 (R2 1 0 2)
    let S := Function.update S 10 (R2 1 0 1)
    let S := Function.update S 11 (R2 0 0 0)
    let S := Function.update S 12 (R2 0 1 1)
    let S := Function.update S 13 (R2 0 2 2)
    let S := Function.update S 14 (R2 0 1 2)
    let S := Function.update S 15 (R2 0 0 2)
    let S := Function.update S 16 (R2 0 0 1)
    let S := Function.update S 17 Psi
    let S := Function.update S 18 PsiPos
    let S := Function.update S 19 PsiNeg
    (S, R2)
  else (S, R2)

/-- How a call of the evaluator ends: it returns with finite values, it ends in the
configuration error of line 30, or it returns after a division by zero at line 73 or 74 has
put an infinity or a NaN into `lambda` or `mu`. -/
inductive Outcome where
  | returned
  | configError
  | nonFinite
  deriving DecidableEq, Repr

/-- Lines 73-74 divide by `(1+nu)*(1-2*nu)` and by `2*(1+nu)`.  With a zero divisor
(`nu = 1/2` or `nu = -1`) the C++ quotient is an infinity or a NaN, which the field `K`
does not contain; the call is then reported as `nonFinite`. -/
def lameOutcome (nu : K) : Outcome :=
  if (1 + nu) * (1 - 2 * nu) = 0 ∨ 2 * (1 + nu) = 0 then Outcome.nonFinite
  else Outcome.returned

/-- The observable result of a call: how it ended, the banks and `gpHist` afterwards. -/
structure MieheResult (K : Type) where
  outcome : Outcome
  mate : MateSystem K
  gpHist : ℕ → K

/-- `MateSystem::MieheLinearElasticMaterial` (lines 12-264).  `Msg_AsFem_Exit` is missing
from the sources and is modelled from the spec: the configuration error "terminates the
process immediately", so the call ends at line 31 with the state as it is there.
`CalcPostiveProjTensor` and `sqrt` are the tensor library's spectral projection and the
math library's square root.  When the outcome is `nonFinite` the source's banks hold
infinities or NaN from line 73 on; the banks reported here are then computed with the
quotient of `K` (which is `0` for a zero divisor) and are not the source's values. -/
def MieheLinearElasticMaterial [FloorRing K] (CalcPostiveProjTensor : RankTwoTensor K → SpectralResult K)
    (sqrt : K → K) (p : GaussPoint K) (gpHist : ℕ → K) (self : MateSystem K) : MieheResult K :=
  if p.InputParams.length < 5 then
    { outcome := Outcome.configError, mate := self, gpHist := gpHist }
  else
    let UseHist := parseUseHist p.InputParams
    let f := frameAfterDecomposition CalcPostiveProjTensor p self
    let h := historyUpdate f p.gpHistOld gpHist
    let e := exposeHistory UseHist f.mate._ScalarMaterials h.1 p.gpHistOld h.2
    let g := diagnostics sqrt p.nDim f.Psi f.PsiPos f.PsiNeg e.1 e.2
    { outcome := lameOutcome (p.InputParams.getD 1 0)
      mate := { _ScalarMaterials := g.1, _Rank2Materials := g.2,
                _Rank4Materials := f.mate._Rank4Materials }
      gpHist := h.2 }

/-! ## The nonlinear driver -/

/-- Modelled from the spec: the `MonitorCtx` record, whose declaration is missing from the
sources: residual norm, solution-update norm and their product, each with its iteration-0
baseline, the iteration count and the debug-verbosity flag, in the order of the initialiser
of line 106. -/
structure MonitorCtx (K : Type) where
  rnorm0 : K
  rnorm : K
  dunorm0 : K
  dunorm : K
  enorm0 : K
  enorm : K
  iters : ℤ
  IsDepDebug : Bool

/-- `Monitor` (lines 12-28).  `solutionNorm` is the value `SNESGetSolutionNorm` stores into
`user->dunorm`; the optional log line is not part of the state. -/
def Monitor (solutionNorm : K) (iters : ℤ) (rnorm : K) (user : MonitorCtx K) : MonitorCtx K :=
  let user := { user with iters := iters }
  let user := { user with rnorm := rnorm }
  let user := { user with dunorm := solutionNorm }
  let user := { user with enorm := rnorm * user.dunorm }
  let user := if iters = 0 then
      { user with rnorm0 := rnorm, dunorm0 := user.dunorm, enorm0 := user.enorm }
    else user
  user

/-- The code `SNES_CONVERGED_FNORM_ABS` of PETSc's `SNESConvergedReason`. -/
def SNES_CONVERGED_FNORM_ABS : ℤ := 2

/-- The code `SNES_CONVERGED_FNORM_RELATIVE` of PETSc's `SNESConvergedReason`. -/
def SNES_CONVERGED_FNORM_RELATIVE : ℤ := 3

/-- The code `SNES_CONVERGED_SNORM_RELATIVE` of PETSc's `SNESConvergedReason`. -/
def SNES_CONVERGED_SNORM_RELATIVE : ℤ := 4

/-- One monitor callback issued by the engine during `SNESSolve`. -/
structure MonitorCall (K : Type) where
  iters : ℤ
  rnorm : K
  solutionNorm : K

/-- What the external engine does during `SNESSolve` as far as the driver can observe: the
monitor callbacks it issues, in order, and the reason `SNESGetConvergedReason` reports. -/
structure EngineRun (K : Type) where
  monitorCalls : List (MonitorCall K)
  reason : ℤ

/-- The members of `NonlinearSolver` written by `SSolve`. -/
structure NonlinearSolver (K : Type) where
  _monctx : MonitorCtx K
  _Iters : ℤ
  _snesreason : ℤ

/-- `NonlinearSolver::SSolve` (lines 91-155): reset the monitor context, let the engine run
(it calls `Monitor` on `_monctx`), record the iteration count and classify the reason. -/
def SSolve (IsDepDebug : Bool) (run : EngineRun K) (self : NonlinearSolver K) :
    Bool × NonlinearSolver K :=
  let _monctx : MonitorCtx K :=
    { rnorm0 := 0, rnorm := 1, dunorm0 := 0, dunorm := 1, enorm0 := 0, enorm := 1,
      iters := 0, IsDepDebug := IsDepDebug }
  let _monctx := run.monitorCalls.foldl
    (fun ctx c => Monitor c.solutionNorm c.iters c.rnorm ctx) _monctx
  let _snesreason := run.reason
  let _Iters := _monctx.iters
  let self := { self with _monctx := _monctx, _Iters := _Iters, _snesreason := _snesreason }
  if _snesreason = SNES_CONVERGED_FNORM_ABS then (true, self)
  else if _snesreason = SNES_CONVERGED_FNORM_RELATIVE then (true, self)
  else if _snesreason = SNES_CONVERGED_SNORM_RELATIVE then (true, self)
  else (false, self)

/-! ## A material point evaluated call after call -/

/-- The history values `gpHist[0]` produced by evaluating one material point call after call,
each call's `gpHistOld[0]` being the `gpHist[0]` written by the call before it (the first
call's the initial `gpHist[0]`).  A call that ends in the configuration error terminates the
process, so the sequence ends there; every other call returns and the sequence goes on. -/
def historySequence [FloorRing K] (CalcPostiveProjTensor : RankTwoTensor K → SpectralResult K) (sqrt : K → K) :
    List (GaussPoint K) → (ℕ → K) → MateSystem K → List K
  | [], _, _ => []
  | p :: rest, gpHist, self =>
    let r := MieheLinearElasticMaterial CalcPostiveProjTensor sqrt
      { p with gpHistOld := Function.update p.gpHistOld 0 (gpHist 0) } gpHist self
    if r.outcome = Outcome.configError then []
    else r.gpHist 0 :: historySequence CalcPostiveProjTensor sqrt rest r.gpHist r.mate

/-! ## Concrete inputs -/

/-- The parameter list of the spec's scenarios: `E`, `nu`, `Gc`, `L`, viscosity. -/
def scenarioParams : List ℚ := [210000, 3 / 10, 27 / 10, 1 / 50, 0]

/-- Banks holding zero in every entry. -/
def zeroBanks : MateSystem ℚ where
  _ScalarMaterials := fun _ => 0
  _Rank2Materials := fun _ => RankTwoTensor.SetToZeros
  _Rank4Materials := fun _ => RankFourTensor.SetToZeros

/-- The fresh 2D point at rest of the scenario with the Poisson ratio `nu = 1/2` of an
incompressible material: zero displacement gradient, damage `0`, old history `0`. -/
def incompressiblePoint : GaussPoint ℚ where
  nDim := 2
  InputParams := [210000, 1 / 2, 27 / 10, 1 / 50, 0]
  gpU := fun _ => 0
  gpGradU := fun _ _ => 0
  gpHistOld := fun _ => 0

/-- A fresh 2D point at rest: the scenario parameters, zero displacement gradient, damage
`0`, old history `0`. -/
def restPoint : GaussPoint ℚ where
  nDim := 2
  InputParams := scenarioParams
  gpU := fun _ => 0
  gpGradU := fun _ _ => 0
  gpHistOld := fun _ => 0

/-- The 2D point of the uniaxial scenario: `eps11 = 0.001`, every other gradient component
zero, damage `0`, old history `0`. -/
def uniaxialPoint : GaussPoint ℚ where
  nDim := 2
  InputParams := scenarioParams
  gpU := fun _ => 0
  gpGradU := fun i j => if i = 0 ∧ j = 0 then 1 / 1000 else 0
  gpHistOld := fun _ => 0

/-- The uniaxial point with a sixth parameter `1`, which asks for the staggered scheme. -/
def staggeredPoint : GaussPoint ℚ where
  nDim := 2
  InputParams := [210000, 3 / 10, 27 / 10, 1 / 50, 0, 1]
  gpU := fun _ => 0
  gpGradU := fun i j => if i = 0 ∧ j = 0 then 1 / 1000 else 0
  gpHistOld := fun _ => 0

/-- A 3D point stretched along the three axes, `eps = diag(1, 1, 1/100)`, with damage `1/2`,
old history `0`, Young's modulus `E = 1` and the given Poisson ratio; the seventh parameter
is the requested decomposition mode. -/
def triaxialPoint (nu mode : ℚ) : GaussPoint ℚ where
  nDim := 3
  InputParams := [1, nu, 27 / 10, 1 / 50, 0, 0, mode]
  gpU := fun _ => 1 / 2
  gpGradU := fun i j =>
    if i = 0 ∧ j = 0 then 1 else if i = 1 ∧ j = 1 then 1
    else if i = 2 ∧ j = 2 then 1 / 100 else 0
  gpHistOld := fun _ => 0

/-- A 3D point under hydrostatic tension, `eps = diag(1/100, 1/100, 1/100)`, with damage
`1/2`, old history `0`, Young's modulus `E = 1` and the Poisson ratio `nu = -1/5` of an
auxetic material (`lambda = -5/28`); the seventh parameter is the requested decomposition
mode. -/
def hydrostaticPoint (mode : ℚ) : GaussPoint ℚ where
  nDim := 3
  InputParams := [1, -(1 / 5), 27 / 10, 1 / 50, 0, 0, mode]
  gpU := fun _ => 1 / 2
  gpGradU := fun i j =>
    if i = 0 ∧ j = 0 then 1 / 100 else if i = 1 ∧ j = 1 then 1 / 100
    else if i = 2 ∧ j = 2 then 1 / 100 else 0
  gpHistOld := fun _ => 0

/-- A 2D point under uniaxial compression: `eps11 = -0.001`, every other gradient component
zero, damage `0`, old history `0`, the scenario parameters. -/
def compressedPoint : GaussPoint ℚ where
  nDim := 2
  InputParams := scenarioParams
  gpU := fun _ => 0
  gpGradU := fun i j => if i = 0 ∧ j = 0 then -(1 / 1000) else 0
  gpHistOld := fun _ => 0

/-- A 2D point stretched along the first axis and compressed along the second,
`eps = diag(1/1000, -1/2000, 0)`, with damage `0`, old history `0`, `E = 210e3`, `nu = 0.3`;
the seventh parameter is the requested decomposition mode. -/
def biaxialPoint (mode : ℚ) : GaussPoint ℚ where
  nDim := 2
  InputParams := [210000, 3 / 10, 27 / 10, 1 / 50, 0, 0, mode]
  gpU := fun _ => 0
  gpGradU := fun i j =>
    if i = 0 ∧ j = 0 then 1 / 1000 else if i = 1 ∧ j = 1 then -(1 / 2000) else 0
  gpHistOld := fun _ => 0

/-- An engine run of three iterations that ends with the given reason. -/
def threeIterationRun (reason : ℤ) : EngineRun ℚ where
  monitorCalls := [⟨0, 8, 1⟩, ⟨1, 2, 1 / 2⟩, ⟨2, 1 / 100, 1 / 50⟩]
  reason := reason

/-- An engine run in which the monitor is never invoked. -/
def silentRun (reason : ℤ) : EngineRun ℚ where
  monitorCalls := []
  reason := reason

/-- A driver whose members hold values left by an earlier solve. -/
def usedSolver : NonlinearSolver ℚ where
  _monctx := ⟨3, 1, 4, 1, 12, 1, 9, false⟩
  _Iters := 9
  _snesreason := -5

/-! ## Theorems -/

/-- C1: `SSolve` returns `true` exactly when the reason reported by the engine is one of
`SNES_CONVERGED_FNORM_ABS`, `SNES_CONVERGED_FNORM_RELATIVE`, `SNES_CONVERGED_SNORM_RELATIVE`;
every other reason code yields `false`. -/
theorem SSolve_true_iff (IsDepDebug : Bool) (run : EngineRun K) (self : NonlinearSolver K) :
    ((SSolve IsDepDebug run self).1 = true ↔
        (run.reason = SNES_CONVERGED_FNORM_ABS ∨ run.reason = SNES_CONVERGED_FNORM_RELATIVE
          ∨ run.reason = SNES_CONVERGED_SNORM_RELATIVE))
      ∧ ((SSolve IsDepDebug run self).1 = false ↔
        (run.reason ≠ SNES_CONVERGED_FNORM_ABS ∧ run.reason ≠ SNES_CONVERGED_FNORM_RELATIVE
          ∧ run.reason ≠ SNES_CONVERGED_SNORM_RELATIVE)) := by
  unfold SSolve
  by_cases h1 : run.reason = SNES_CONVERGED_FNORM_ABS
  · simp [h1]
  · by_cases h2 : run.reason = SNES_CONVERGED_FNORM_RELATIVE
    · simp [h1, h2]
    · by_cases h3 : run.reason = SNES_CONVERGED_SNORM_RELATIVE
      · simp [h1, h2, h3]
      · simp [h1, h2, h3]

/-- C10: after `Monitor`, the context holds the given `iters`, `rnorm` and solution norm and
`enorm = rnorm * dunorm`; the baselines become `rnorm`, `dunorm`, `enorm` when `iters = 0` and
are unchanged when `iters ≠ 0`; the debug flag is unchanged. -/
theorem Monitor_effect (solutionNorm : K) (iters : ℤ) (rnorm : K) (user : MonitorCtx K) :
    (Monitor solutionNorm iters rnorm user).iters = iters
      ∧ (Monitor solutionNorm iters rnorm user).rnorm = rnorm
      ∧ (Monitor solutionNorm iters rnorm user).dunorm = solutionNorm
      ∧ (Monitor solutionNorm iters rnorm user).enorm = rnorm * solutionNorm
      ∧ (iters = 0 →
          (Monitor solutionNorm iters rnorm user).rnorm0 = rnorm
          ∧ (Monitor solutionNorm iters rnorm user).dunorm0 = solutionNorm
          ∧ (Monitor solutionNorm iters rnorm user).enorm0 = rnorm * solutionNorm)
      ∧ (iters ≠ 0 →
          (Monitor solutionNorm iters rnorm user).rnorm0 = user.rnorm0
          ∧ (Monitor solutionNorm iters rnorm user).dunorm0 = user.dunorm0
          ∧ (Monitor solutionNorm iters rnorm user).enorm0 = user.enorm0)
      ∧ (Monitor solutionNorm iters rnorm user).IsDepDebug = user.IsDepDebug := by
  unfold Monitor
  by_cases h : iters = 0
  · simp [h]
  · simp [h]

/-- Witness for C10: the first callback of a solve (iteration 0) and a later one
(iteration 3) on the freshly reset context. -/
theorem Monitor_effect_witness :
    (Monitor (4 : ℚ) 0 (1 / 2) ⟨0, 1, 0, 1, 0, 1, 0, true⟩).enorm0 = 2
      ∧ (Monitor (4 : ℚ) 3 (1 / 2) ⟨0, 1, 0, 1, 0, 1, 0, true⟩).enorm0 = 0 := by
  have h0 := Monitor_effect (4 : ℚ) 0 (1 / 2) ⟨0, 1, 0, 1, 0, 1, 0, true⟩
  have h3 := Monitor_effect (4 : ℚ) 3 (1 / 2) ⟨0, 1, 0, 1, 0, 1, 0, true⟩
  refine ⟨?_, ?_⟩
  · rw [(h0.2.2.2.2.1 rfl).2.2]; norm_num
  · exact (h3.2.2.2.2.2.1 (by decide)).2.2

/-! ### The evaluator: control flow and frame -/

theorem Miehe_of_short [FloorRing K] (spectral : RankTwoTensor K → SpectralResult K) (sqrt : K → K) (p : GaussPoint K)
    (gpHist : ℕ → K) (self : MateSystem K) (h : p.InputParams.length < 5) :
    MieheLinearElasticMaterial spectral sqrt p gpHist self
      = { outcome := Outcome.configError, mate := self, gpHist := gpHist } := by
  unfold MieheLinearElasticMaterial
  rw [if_pos h]

theorem lameOutcome_ne_configError (nu : K) : lameOutcome nu ≠ Outcome.configError := by
  unfold lameOutcome
  split_ifs <;> simp

theorem lameOutcome_of_ne_zero (nu : K) (h1 : (1 + nu) * (1 - 2 * nu) ≠ 0)
    (h2 : 2 * (1 + nu) ≠ 0) : lameOutcome nu = Outcome.returned := by
  unfold lameOutcome
  rw [if_neg (by tauto)]

theorem Miehe_outcome_of_long [FloorRing K] (spectral : RankTwoTensor K → SpectralResult K) (sqrt : K → K)
    (p : GaussPoint K) (gpHist : ℕ → K) (self : MateSystem K) (h : 5 ≤ p.InputParams.length) :
    (MieheLinearElasticMaterial spectral sqrt p gpHist self).outcome
      = lameOutcome (p.InputParams.getD 1 0) := by
  unfold MieheLinearElasticMaterial
  rw [if_neg (by omega)]

theorem Miehe_outcome_ne_configError [FloorRing K] (spectral : RankTwoTensor K → SpectralResult K)
    (sqrt : K → K) (p : GaussPoint K) (gpHist : ℕ → K) (self : MateSystem K)
    (h : 5 ≤ p.InputParams.length) :
    (MieheLinearElasticMaterial spectral sqrt p gpHist self).outcome ≠ Outcome.configError := by
  rw [Miehe_outcome_of_long spectral sqrt p gpHist self h]
  exact lameOutcome_ne_configError _

theorem Miehe_gpHist_of_long [FloorRing K] (spectral : RankTwoTensor K → SpectralResult K) (sqrt : K → K)
    (p : GaussPoint K) (gpHist : ℕ → K) (self : MateSystem K) (h : 5 ≤ p.InputParams.length) :
    (MieheLinearElasticMaterial spectral sqrt p gpHist self).gpHist
      = (historyUpdate (frameAfterDecomposition spectral p self) p.gpHistOld gpHist).2 := by
  unfold MieheLinearElasticMaterial
  rw [if_neg (by omega)]

theorem historyUpdate_hist_zero (f : Frame K) (gpHistOld gpHist : ℕ → K) :
    (historyUpdate f gpHistOld gpHist).2 0 = max f.PsiPos (gpHistOld 0) := by
  unfold historyUpdate
  by_cases h : f.PsiPos ≥ gpHistOld 0
  · simp [h, max_eq_left (ge_iff_le.mp h)]
  · have h2 : f.PsiPos ≤ gpHistOld 0 := le_of_lt (not_le.mp h)
    simp [h, max_eq_right h2]

/-- C3: the call ends in the configuration error exactly when fewer than 5 parameters are
supplied, and then every entry of the scalar, rank-2 and rank-4 banks and of `gpHist` is
what it was before the call. -/
theorem Miehe_configError_iff_and_frame [FloorRing K] (spectral : RankTwoTensor K → SpectralResult K)
    (sqrt : K → K) (p : GaussPoint K) (gpHist : ℕ → K) (self : MateSystem K) :
    ((MieheLinearElasticMaterial spectral sqrt p gpHist self).outcome = Outcome.configError
        ↔ p.InputParams.length < 5)
      ∧ ((MieheLinearElasticMaterial spectral sqrt p gpHist self).outcome = Outcome.configError →
          (∀ i, (MieheLinearElasticMaterial spectral sqrt p gpHist self).mate._ScalarMaterials i
              = self._ScalarMaterials i)
          ∧ (∀ i, (MieheLinearElasticMaterial spectral sqrt p gpHist self).mate._Rank2Materials i
              = self._Rank2Materials i)
          ∧ (∀ i, (MieheLinearElasticMaterial spectral sqrt p gpHist self).mate._Rank4Materials i
              = self._Rank4Materials i)
          ∧ (∀ i, (MieheLinearElasticMaterial spectral sqrt p gpHist self).gpHist i = gpHist i)) := by
  by_cases h : p.InputParams.length < 5
  · rw [Miehe_of_short spectral sqrt p gpHist self h]
    simp [h]
  · have h5 : 5 ≤ p.InputParams.length := by omega
    have ho := Miehe_outcome_ne_configError spectral sqrt p gpHist self h5
    simp [h, ho]

/-- Witness for C3: four parameters (the viscosity is missing) on banks that hold zero. -/
theorem Miehe_configError_iff_and_frame_witness :
    (MieheLinearElasticMaterial axisSpectral Rat.sqrt
        { restPoint with InputParams := [210000, 3 / 10, 27 / 10, 1 / 50] }
        (fun _ => 7) zeroBanks).outcome = Outcome.configError
      ∧ (MieheLinearElasticMaterial axisSpectral Rat.sqrt
        { restPoint with InputParams := [210000, 3 / 10, 27 / 10, 1 / 50] }
        (fun _ => 7) zeroBanks).gpHist 0 = 7 := by
  have h := Miehe_configError_iff_and_frame axisSpectral Rat.sqrt
    { restPoint with InputParams := [210000, 3 / 10, 27 / 10, 1 / 50] } (fun _ => 7) zeroBanks
  have ho := h.1.mpr (by decide)
  exact ⟨ho, (h.2 ho).2.2.2 0⟩

theorem historySequence_chain [FloorRing K] (spectral : RankTwoTensor K → SpectralResult K) (sqrt : K → K)
    (calls : List (GaussPoint K)) :
    ∀ (gpHist : ℕ → K) (self : MateSystem K),
      List.Chain (fun a b => a ≤ b) (gpHist 0) (historySequence spectral sqrt calls gpHist self) := by
  induction calls with
  | nil => intro gpHist self; simp [historySequence]
  | cons p rest ih =>
    intro gpHist self
    by_cases h : p.InputParams.length < 5
    · have hr := Miehe_of_short spectral sqrt
        { p with gpHistOld := Function.update p.gpHistOld 0 (gpHist 0) } gpHist self h
      simp [historySequence, hr]
    · have h5 : 5 ≤ ({ p with gpHistOld := Function.update p.gpHistOld 0 (gpHist 0) } :
          GaussPoint K).InputParams.length := by
        show 5 ≤ p.InputParams.length
        omega
      have ho := Miehe_outcome_ne_configError spectral sqrt
        { p with gpHistOld := Function.update p.gpHistOld 0 (gpHist 0) } gpHist self h5
      have hg := Miehe_gpHist_of_long spectral sqrt
        { p with gpHistOld := Function.update p.gpHistOld 0 (gpHist 0) } gpHist self h5
      simp only [historySequence, if_neg ho]
      refine List.Chain.cons ?_ (ih _ _)
      rw [hg, historyUpdate_hist_zero]
      simp

theorem historySequence_length [FloorRing K] (spectral : RankTwoTensor K → SpectralResult K) (sqrt : K → K)
    (calls : List (GaussPoint K)) (hall : ∀ p ∈ calls, 5 ≤ p.InputParams.length) :
    ∀ (gpHist : ℕ → K) (self : MateSystem K),
      (historySequence spectral sqrt calls gpHist self).length = calls.length := by
  induction calls with
  | nil => intro gpHist self; simp [historySequence]
  | cons p rest ih =>
    intro gpHist self
    have h5 : 5 ≤ ({ p with gpHistOld := Function.update p.gpHistOld 0 (gpHist 0) } :
        GaussPoint K).InputParams.length := hall p (List.mem_cons_self _ _)
    have ho := Miehe_outcome_ne_configError spectral sqrt
      { p with gpHistOld := Function.update p.gpHistOld 0 (gpHist 0) } gpHist self h5
    simp only [historySequence, if_neg ho, List.length_cons]
    rw [ih (fun q hq => hall q (List.mem_cons_of_mem _ hq))]

/-- C2: every successful call leaves `gpHist[0] ≥ gpHistOld[0]`, and when a material point is
evaluated call after call, each call reading the previous call's `gpHist` as its `gpHistOld`
(with arbitrary gradients, damage values, parameters and modes in each call), every call of
the sequence produces a value and the values of `gpHist[0]` are non-decreasing, starting
from the initial history. -/
theorem history_monotone [FloorRing K] (spectral : RankTwoTensor K → SpectralResult K) (sqrt : K → K) :
    (∀ (p : GaussPoint K) (gpHist : ℕ → K) (self : MateSystem K), 5 ≤ p.InputParams.length →
        p.gpHistOld 0 ≤ (MieheLinearElasticMaterial spectral sqrt p gpHist self).gpHist 0)
      ∧ (∀ (calls : List (GaussPoint K)) (gpHist : ℕ → K) (self : MateSystem K),
          (∀ p ∈ calls, 5 ≤ p.InputParams.length) →
          (historySequence spectral sqrt calls gpHist self).length = calls.length
            ∧ List.Chain (fun a b => a ≤ b) (gpHist 0)
                (historySequence spectral sqrt calls gpHist self)) := by
  constructor
  · intro p gpHist self h5
    rw [Miehe_gpHist_of_long spectral sqrt p gpHist self h5, historyUpdate_hist_zero]
    exact le_max_right _ _
  · intro calls gpHist self hall
    exact ⟨historySequence_length spectral sqrt calls hall gpHist self,
      historySequence_chain spectral sqrt calls gpHist self⟩

/-- Witness for C2: the uniaxial point loaded, then unloaded to rest, starting from a fresh
history. -/
theorem history_monotone_witness :
    (historySequence axisSpectral Rat.sqrt [uniaxialPoint, restPoint]
        (fun _ => 0) zeroBanks).length = 2
      ∧ List.Chain (fun a b => a ≤ b) (0 : ℚ)
          (historySequence axisSpectral Rat.sqrt [uniaxialPoint, restPoint]
            (fun _ => 0) zeroBanks) :=
  (history_monotone axisSpectral Rat.sqrt).2 [uniaxialPoint, restPoint] (fun _ => 0) zeroBanks
    (by
      intro p hp
      simp only [List.mem_cons, List.mem_singleton, List.not_mem_nil, or_false] at hp
      rcases hp with rfl | rfl <;> decide)

/-! ### The spectral contract -/

theorem orthonormal_expand (v : RankTwoTensor K)
    (horth : ∀ a b, ∑ i, v i a * v i b = if a = b then 1 else 0) :
    (v 0 0 * v 0 0 + v 1 0 * v 1 0 + v 2 0 * v 2 0 = 1)
      ∧ (v 0 1 * v 0 1 + v 1 1 * v 1 1 + v 2 1 * v 2 1 = 1)
      ∧ (v 0 2 * v 0 2 + v 1 2 * v 1 2 + v 2 2 * v 2 2 = 1)
      ∧ (v 0 0 * v 0 1 + v 1 0 * v 1 1 + v 2 0 * v 2 1 = 0)
      ∧ (v 0 0 * v 0 2 + v 1 0 * v 1 2 + v 2 0 * v 2 2 = 0)
      ∧ (v 0 1 * v 0 2 + v 1 1 * v 1 2 + v 2 1 * v 2 2 = 0) := by
  have h00 := horth 0 0
  have h01 := horth 0 1
  have h02 := horth 0 2
  have h11 := horth 1 1
  have h12 := horth 1 2
  have h22 := horth 2 2
  simp only [Fin.sum_univ_three] at h00 h01 h02 h11 h12 h22
  refine ⟨?_, ?_, ?_, ?_, ?_, ?_⟩
  · simpa using h00
  · simpa using h11
  · simpa using h22
  · simpa using h01
  · simpa using h02
  · simpa using h12

/-- The double contraction of two tensors that share an orthonormal eigenbasis is the sum of
the products of their eigenvalues. -/
theorem doubleDot_of_common_basis (v : RankTwoTensor K) (c e : Fin 3 → K)
    (horth : ∀ a b, ∑ i, v i a * v i b = if a = b then 1 else 0) :
    RankTwoTensor.DoubleDot (fun i j => ∑ a, c a * (v i a * v j a))
        (fun i j => ∑ a, e a * (v i a * v j a)) = ∑ a, c a * e a := by
  obtain ⟨h00, h11, h22, h01, h02, h12⟩ := orthonormal_expand v horth
  simp only [RankTwoTensor.DoubleDot, Fin.sum_univ_three]
  linear_combination
    (c 0 * e 0 * (v 0 0 * v 0 0 + v 1 0 * v 1 0 + v 2 0 * v 2 0 + 1)) * h00
    + (c 1 * e 1 * (v 0 1 * v 0 1 + v 1 1 * v 1 1 + v 2 1 * v 2 1 + 1)) * h11
    + (c 2 * e 2 * (v 0 2 * v 0 2 + v 1 2 * v 1 2 + v 2 2 * v 2 2 + 1)) * h22
    + ((c 0 * e 1 + c 1 * e 0) * (v 0 0 * v 0 1 + v 1 0 * v 1 1 + v 2 0 * v 2 1)) * h01
    + ((c 0 * e 2 + c 2 * e 0) * (v 0 0 * v 0 2 + v 1 0 * v 1 2 + v 2 0 * v 2 2)) * h02
    + ((c 1 * e 2 + c 2 * e 1) * (v 0 1 * v 0 2 + v 1 1 * v 1 2 + v 2 1 * v 2 2)) * h12

/-- With no negative eigenvalue the positive part is the tensor itself. -/
theorem positivePart_of_nonneg (A : RankTwoTensor K) (r : SpectralResult K)
    (h : IsSpectralProjection A r) (hpos : ∀ a, 0 ≤ r.eigval a) :
    RankFourTensor.DoubleDot r.ProjPos A = A := by
  rw [h.positive_part]
  funext i j
  rw [h.decomposition i j]
  unfold SpectralResult.PositivePart
  refine Finset.sum_congr rfl (fun a _ => ?_)
  rw [max_eq_left (hpos a)]

/-- With no negative eigenvalue the trace is non-negative. -/
theorem trace_nonneg_of_nonneg (A : RankTwoTensor K) (r : SpectralResult K)
    (h : IsSpectralProjection A r) (hpos : ∀ a, 0 ≤ r.eigval a) :
    0 ≤ RankTwoTensor.Trace A := by
  unfold RankTwoTensor.Trace
  refine Finset.sum_nonneg (fun i _ => ?_)
  rw [h.decomposition i i]
  refine Finset.sum_nonneg (fun a _ => ?_)
  exact mul_nonneg (hpos a) (mul_self_nonneg _)

/-- The coordinate-axis decomposition meets the spectral contract on every tensor that is
diagonal in the coordinate axes. -/
theorem axisSpectral_isSpectralProjection (A : RankTwoTensor K)
    (hdiag : ∀ i j, i ≠ j → A i j = 0) : IsSpectralProjection A (axisSpectral A) := by
  have h01 := hdiag 0 1 (by decide)
  have h02 := hdiag 0 2 (by decide)
  have h10 := hdiag 1 0 (by decide)
  have h12 := hdiag 1 2 (by decide)
  have h20 := hdiag 2 0 (by decide)
  have h21 := hdiag 2 1 (by decide)
  refine ⟨?_, ?_, ?_⟩
  · intro a b
    fin_cases a <;> fin_cases b <;>
      simp [axisSpectral, RankTwoTensor.SetToIdentity, Fin.sum_univ_three]
  · intro i j
    fin_cases i <;> fin_cases j <;>
      simp [axisSpectral, RankTwoTensor.SetToIdentity, Fin.sum_univ_three, h01, h02, h10, h12,
        h20, h21]
  · have hmax : ∀ x : K, (if 0 < x then x else 0) = max x 0 := by
      intro x
      rcases lt_or_le 0 x with hx | hx
      · rw [if_pos hx, max_eq_left hx.le]
      · rw [if_neg (not_lt.mpr hx), max_eq_right hx]
    funext i j
    fin_cases i <;> fin_cases j <;>
      simp [axisSpectral, RankTwoTensor.SetToIdentity, RankFourTensor.DoubleDot,
        SpectralResult.PositivePart, Fin.sum_univ_three, hmax]

theorem axisSpectral_doubleDot_apply (A B : RankTwoTensor K) (i j : Fin 3) :
    RankFourTensor.DoubleDot (axisSpectral A).ProjPos B i j
      = if i = j ∧ 0 < A i i then B i i else 0 := by
  fin_cases i <;> fin_cases j <;>
    simp [axisSpectral, RankFourTensor.DoubleDot, Fin.sum_univ_three]

theorem setupFrame_strain_symm (p : GaussPoint K) (self : MateSystem K) (i j : Fin 3) :
    (setupFrame p self).Strain i j = (setupFrame p self).Strain j i := by
  simp only [setupFrame, RankTwoTensor.scale, RankTwoTensor.Transpose, Pi.add_apply]
  ring

/-- Over the real numbers every symmetric tensor has a spectral decomposition that meets the
contract of `CalcPostiveProjTensor`: orthonormal eigenvectors, eigenvalues that rebuild the
tensor, and a fourth-order tensor whose contraction with the tensor is its positive part. -/
theorem exists_isSpectralProjection_real (A : RankTwoTensor ℝ) (hsym : ∀ i j, A i j = A j i) :
    ∃ r : SpectralResult ℝ, IsSpectralProjection A r := by
  have hA : (Matrix.of A).IsHermitian := by
    ext i j
    simp [Matrix.conjTranspose_apply, hsym j i]
  have hU : (star (hA.eigenvectorUnitary : Matrix (Fin 3) (Fin 3) ℝ))
      * (hA.eigenvectorUnitary : Matrix (Fin 3) (Fin 3) ℝ) = 1 :=
    unitary.coe_star_mul_self _
  have horth : ∀ a b, ∑ i, (hA.eigenvectorUnitary : Matrix (Fin 3) (Fin 3) ℝ) i a
      * (hA.eigenvectorUnitary : Matrix (Fin 3) (Fin 3) ℝ) i b = if a = b then 1 else 0 := by
    intro a b
    have h := congrFun (congrFun hU a) b
    simp only [Matrix.mul_apply, Matrix.star_apply, star_trivial, Matrix.one_apply] at h
    exact h
  have hdec : ∀ i j, A i j = ∑ a, hA.eigenvalues a
      * ((hA.eigenvectorUnitary : Matrix (Fin 3) (Fin 3) ℝ) i a
          * (hA.eigenvectorUnitary : Matrix (Fin 3) (Fin 3) ℝ) j a) := by
    intro i j
    have h := congrFun (congrFun hA.spectral_theorem i) j
    simp only [Matrix.mul_apply, Matrix.diagonal_apply, Matrix.star_apply, star_trivial,
      Matrix.of_apply, Function.comp_apply, RCLike.ofReal_real_eq_id, id_eq, mul_ite, mul_zero,
      Finset.sum_ite_eq, Finset.mem_univ, if_true] at h
    rw [h]
    refine Finset.sum_congr rfl (fun a _ => ?_)
    rw [Finset.sum_ite_eq' Finset.univ a, if_pos (Finset.mem_univ a)]
    ring
  let pos : RankTwoTensor ℝ := fun i j => ∑ a, max (hA.eigenvalues a) 0
      * ((hA.eigenvectorUnitary : Matrix (Fin 3) (Fin 3) ℝ) i a
          * (hA.eigenvectorUnitary : Matrix (Fin 3) (Fin 3) ℝ) j a)
  by_cases hzero : RankTwoTensor.DoubleDot A A = 0
  · -- `A = 0`: every eigenvalue vanishes
    have hA0 : ∀ i j, A i j = 0 := by
      intro i j
      have hnn : ∀ i ∈ Finset.univ, 0 ≤ ∑ j, A i j * A i j :=
        fun i _ => Finset.sum_nonneg (fun j _ => mul_self_nonneg _)
      have h1 := (Finset.sum_eq_zero_iff_of_nonneg hnn).mp hzero i (Finset.mem_univ i)
      have h2 := (Finset.sum_eq_zero_iff_of_nonneg
        (fun j _ => mul_self_nonneg (A i j))).mp h1 j (Finset.mem_univ j)
      exact mul_self_eq_zero.mp h2
    refine ⟨⟨fun _ _ _ _ => 0, fun _ => 0, RankTwoTensor.SetToIdentity⟩, ?_, ?_, ?_⟩
    · intro a b
      fin_cases a <;> fin_cases b <;> simp [RankTwoTensor.SetToIdentity, Fin.sum_univ_three]
    · intro i j
      simp [hA0 i j]
    · funext i j
      simp [RankFourTensor.DoubleDot, SpectralResult.PositivePart]
  · refine ⟨⟨fun i j k l => pos i j * A k l / RankTwoTensor.DoubleDot A A, hA.eigenvalues,
      (hA.eigenvectorUnitary : Matrix (Fin 3) (Fin 3) ℝ)⟩, horth, hdec, ?_⟩
    funext i j
    show (∑ k, ∑ l, pos i j * A k l / RankTwoTensor.DoubleDot A A * A k l) = pos i j
    have : ∀ k l, pos i j * A k l / RankTwoTensor.DoubleDot A A * A k l
        = pos i j / RankTwoTensor.DoubleDot A A * (A k l * A k l) := by
      intro k l; ring
    simp only [this, ← Finset.mul_sum]
    have hdd : (∑ k, ∑ l, A k l * A k l) = RankTwoTensor.DoubleDot A A := rfl
    rw [hdd]
    field_simp

/-- A spectral projection on real tensors that meets the contract on every symmetric
tensor. -/
theorem exists_spectral_real :
    ∃ spectral : RankTwoTensor ℝ → SpectralResult ℝ, MeetsSpectralContract spectral := by
  haveI : Nonempty (SpectralResult ℝ) := ⟨⟨fun _ _ _ _ => 0, fun _ => 0, fun _ _ => 0⟩⟩
  choose! f hf using exists_isSpectralProjection_real
  exact ⟨f, hf⟩

/-! ### The strain-based branch -/

theorem frameAfterDecomposition_of_strain_mode [FloorRing K] (spectral : RankTwoTensor K → SpectralResult K)
    (p : GaussPoint K) (self : MateSystem K) (hmode : parseDecompositionMode p.InputParams = 0) :
    frameAfterDecomposition spectral p self
      = strainDecomposition spectral
          (lameLambda (p.InputParams.getD 0 0) (p.InputParams.getD 1 0))
          (lameMu (p.InputParams.getD 0 0) (p.InputParams.getD 1 0)) p (setupFrame p self) := by
  unfold frameAfterDecomposition decompose
  simp [hmode]

theorem frameAfterDecomposition_of_stress_mode [FloorRing K] (spectral : RankTwoTensor K → SpectralResult K)
    (p : GaussPoint K) (self : MateSystem K) (hmode : parseDecompositionMode p.InputParams = 1) :
    frameAfterDecomposition spectral p self
      = stressDecomposition spectral (p.InputParams.getD 0 0) (p.InputParams.getD 1 0) p
          (setupFrame p self) := by
  unfold frameAfterDecomposition decompose
  simp [hmode]

theorem parseDecompositionMode_cases [FloorRing K] (InputParams : List K) :
    parseDecompositionMode InputParams = 0 ∨ parseDecompositionMode InputParams = 1 := by
  unfold parseDecompositionMode
  split_ifs
  · exact Or.inl rfl
  · exact Or.inr rfl
  · exact Or.inl rfl

theorem strainDecomposition_split_orthogonal (spectral : RankTwoTensor K → SpectralResult K)
    (lambda mu : K) (p : GaussPoint K) (f : Frame K)
    (hc : IsSpectralProjection f.Strain (spectral f.Strain)) :
    RankTwoTensor.DoubleDot (strainDecomposition spectral lambda mu p f).StrainPos
      (strainDecomposition spectral lambda mu p f).StrainNeg = 0 := by
  show RankTwoTensor.DoubleDot
      (RankFourTensor.DoubleDot (spectral f.Strain).ProjPos f.Strain)
      (f.Strain - RankFourTensor.DoubleDot (spectral f.Strain).ProjPos f.Strain) = 0
  rw [hc.positive_part]
  have hneg : f.Strain - (spectral f.Strain).PositivePart
      = fun i j => ∑ a, ((spectral f.Strain).eigval a - max ((spectral f.Strain).eigval a) 0)
          * ((spectral f.Strain).eigvec i a * (spectral f.Strain).eigvec j a) := by
    funext i j
    show f.Strain i j - (spectral f.Strain).PositivePart i j = _
    rw [hc.decomposition i j]
    unfold SpectralResult.PositivePart
    rw [← Finset.sum_sub_distrib]
    refine Finset.sum_congr rfl (fun a _ => ?_)
    ring
  rw [hneg]
  have hpos : (spectral f.Strain).PositivePart
      = fun i j => ∑ a, max ((spectral f.Strain).eigval a) 0
          * ((spectral f.Strain).eigvec i a * (spectral f.Strain).eigvec j a) := rfl
  rw [hpos, doubleDot_of_common_basis _ _ _ hc.orthonormal]
  refine Finset.sum_eq_zero (fun a _ => ?_)
  rcases le_total 0 ((spectral f.Strain).eigval a) with h | h
  · rw [max_eq_left h]; ring
  · rw [max_eq_right h]; ring

/-- C4: in strain-based mode `StrainPos = ProjPos : Strain`, `StrainNeg = Strain - StrainPos`
and `Strain = StrainPos + StrainNeg` for every displacement gradient, and when the projection
returned for `Strain` is its positive spectral projection the double contraction
`StrainPos : StrainNeg` is `0`.  Over the real numbers a projection that meets the contract
on every symmetric tensor exists, and with every such projection the double contraction is
`0` for every displacement gradient. -/
theorem strain_split_orthogonal [FloorRing K] (spectral : RankTwoTensor K → SpectralResult K) (p : GaussPoint K)
    (self : MateSystem K) (hmode : parseDecompositionMode p.InputParams = 0) :
    (frameAfterDecomposition spectral p self).StrainPos
        = RankFourTensor.DoubleDot
            (spectral (frameAfterDecomposition spectral p self).Strain).ProjPos
            (frameAfterDecomposition spectral p self).Strain
      ∧ (frameAfterDecomposition spectral p self).StrainNeg
        = (frameAfterDecomposition spectral p self).Strain
            - (frameAfterDecomposition spectral p self).StrainPos
      ∧ (frameAfterDecomposition spectral p self).Strain
        = (frameAfterDecomposition spectral p self).StrainPos
            + (frameAfterDecomposition spectral p self).StrainNeg
      ∧ (IsSpectralProjection (frameAfterDecomposition spectral p self).Strain
            (spectral (frameAfterDecomposition spectral p self).Strain) →
          RankTwoTensor.DoubleDot (frameAfterDecomposition spectral p self).StrainPos
            (frameAfterDecomposition spectral p self).StrainNeg = 0)
      ∧ (∃ spectralR : RankTwoTensor ℝ → SpectralResult ℝ, MeetsSpectralContract spectralR)
      ∧ (∀ spectralR : RankTwoTensor ℝ → SpectralResult ℝ, MeetsSpectralContract spectralR →
          ∀ (q : GaussPoint ℝ) (selfR : MateSystem ℝ), parseDecompositionMode q.InputParams = 0 →
            (frameAfterDecomposition spectralR q selfR).Strain
                = (frameAfterDecomposition spectralR q selfR).StrainPos
                  + (frameAfterDecomposition spectralR q selfR).StrainNeg
              ∧ RankTwoTensor.DoubleDot (frameAfterDecomposition spectralR q selfR).StrainPos
                  (frameAfterDecomposition spectralR q selfR).StrainNeg = 0) := by
  refine ⟨?_, ?_, ?_, ?_, exists_spectral_real, ?_⟩
  · rw [frameAfterDecomposition_of_strain_mode spectral p self hmode]
    rfl
  · rw [frameAfterDecomposition_of_strain_mode spectral p self hmode]
    rfl
  · rw [frameAfterDecomposition_of_strain_mode spectral p self hmode]
    show (setupFrame p self).Strain = _ + ((setupFrame p self).Strain - _)
    funext i j
    simp [strainDecomposition]
  · rw [frameAfterDecomposition_of_strain_mode spectral p self hmode]
    intro hc
    exact strainDecomposition_split_orthogonal spectral _ _ p _ hc
  · intro spectralR hR q selfR hq
    rw [frameAfterDecomposition_of_strain_mode spectralR q selfR hq]
    refine ⟨?_, ?_⟩
    · show (setupFrame q selfR).Strain = _ + ((setupFrame q selfR).Strain - _)
      funext i j
      simp [strainDecomposition]
    · exact strainDecomposition_split_orthogonal spectralR _ _ q _
        (hR _ (setupFrame_strain_symm q selfR))

theorem setupFrame_strain_uniaxial :
    (setupFrame uniaxialPoint zeroBanks).Strain
      = fun i j => if i = 0 ∧ j = 0 then 1 / 1000 else 0 := by
  funext i j
  simp only [setupFrame, uniaxialPoint, RankTwoTensor.scale, RankTwoTensor.Transpose,
    Pi.add_apply, Function.update_same, if_true]
  fin_cases i <;> fin_cases j <;> simp [RankTwoTensor.SetFromGradU2]
  norm_num

theorem setupFrame_strain_biaxial (mode : ℚ) :
    (setupFrame (biaxialPoint mode) zeroBanks).Strain
      = fun i j => if i = 0 ∧ j = 0 then 1 / 1000
          else if i = 1 ∧ j = 1 then -(1 / 2000) else 0 := by
  funext i j
  simp only [setupFrame, biaxialPoint, RankTwoTensor.scale, RankTwoTensor.Transpose,
    Pi.add_apply, Function.update_same, if_true]
  fin_cases i <;> fin_cases j <;> simp [RankTwoTensor.SetFromGradU2] <;> norm_num

theorem biaxial_isSpectralProjection (mode : ℚ) :
    IsSpectralProjection (setupFrame (biaxialPoint mode) zeroBanks).Strain
      (axisSpectral (setupFrame (biaxialPoint mode) zeroBanks).Strain) := by
  refine axisSpectral_isSpectralProjection _ (fun i j hij => ?_)
  rw [setupFrame_strain_biaxial]
  fin_cases i <;> fin_cases j <;> simp at hij ⊢

theorem biaxial_mode_zero : parseDecompositionMode (biaxialPoint 0).InputParams = 0 := by
  simp [parseDecompositionMode, biaxialPoint, truncToInt]

/-- Witness for C4: the point stretched along the first axis and compressed along the second,
with the coordinate-axis spectral decomposition: `StrainPos` and `StrainNeg` are both
non-zero and their double contraction is `0`. -/
theorem strain_split_orthogonal_witness :
    parseDecompositionMode (biaxialPoint 0).InputParams = 0
      ∧ IsSpectralProjection
          (frameAfterDecomposition axisSpectral (biaxialPoint 0) zeroBanks).Strain
          (axisSpectral (frameAfterDecomposition axisSpectral (biaxialPoint 0) zeroBanks).Strain)
      ∧ (frameAfterDecomposition axisSpectral (biaxialPoint 0) zeroBanks).StrainPos 0 0
          = 1 / 1000
      ∧ (frameAfterDecomposition axisSpectral (biaxialPoint 0) zeroBanks).StrainNeg 1 1
          = -(1 / 2000)
      ∧ RankTwoTensor.DoubleDot
          (frameAfterDecomposition axisSpectral (biaxialPoint 0) zeroBanks).StrainPos
          (frameAfterDecomposition axisSpectral (biaxialPoint 0) zeroBanks).StrainNeg = 0 := by
  have hmode := biaxial_mode_zero
  have hS : (frameAfterDecomposition axisSpectral (biaxialPoint 0) zeroBanks).Strain
      = (setupFrame (biaxialPoint 0) zeroBanks).Strain := by
    rw [frameAfterDecomposition_of_strain_mode axisSpectral (biaxialPoint 0) zeroBanks hmode]
    rfl
  have hc : IsSpectralProjection
      (frameAfterDecomposition axisSpectral (biaxialPoint 0) zeroBanks).Strain
      (axisSpectral (frameAfterDecomposition axisSpectral (biaxialPoint 0) zeroBanks).Strain) := by
    rw [hS]
    exact biaxial_isSpectralProjection 0
  have h := strain_split_orthogonal axisSpectral (biaxialPoint 0) zeroBanks hmode
  have hP : (frameAfterDecomposition axisSpectral (biaxialPoint 0) zeroBanks).StrainPos 0 0
      = 1 / 1000 := by
    rw [h.1, hS, axisSpectral_doubleDot_apply, setupFrame_strain_biaxial]
    norm_num
  have hN : (frameAfterDecomposition axisSpectral (biaxialPoint 0) zeroBanks).StrainNeg 1 1
      = -(1 / 2000) := by
    rw [h.2.1, h.1, hS]
    show (setupFrame (biaxialPoint 0) zeroBanks).Strain 1 1
      - RankFourTensor.DoubleDot
          (axisSpectral (setupFrame (biaxialPoint 0) zeroBanks).Strain).ProjPos
          (setupFrame (biaxialPoint 0) zeroBanks).Strain 1 1 = _
    rw [axisSpectral_doubleDot_apply, setupFrame_strain_biaxial]
    norm_num
  exact ⟨hmode, hc, hP, hN, h.2.2.2.1 hc⟩

theorem diagnostics_rank2_of_ne (sqrt : K → K) (nDim : ℕ) (Psi PsiPos PsiNeg : K)
    (S : ℕ → K) (R2 : ℕ → RankTwoTensor K) (i : ℕ) (hi : i ≠ 4) :
    (diagnostics sqrt nDim Psi PsiPos PsiNeg S R2).2 i = R2 i := by
  unfold diagnostics
  split_ifs <;> simp [Function.update_noteq hi]

theorem diagnostics_scalar_20 (sqrt : K → K) (nDim : ℕ) (Psi PsiPos PsiNeg : K)
    (S : ℕ → K) (R2 : ℕ → RankTwoTensor K) :
    (diagnostics sqrt nDim Psi PsiPos PsiNeg S R2).1 20 = S 20 := by
  unfold diagnostics
  split_ifs <;> simp [Function.update]

theorem exposeHistory_rank2_of_ne (UseHist : ℤ) (S : ℕ → K) (R2 : ℕ → RankTwoTensor K)
    (gpHistOld gpHist : ℕ → K) (i : ℕ) (hi : i ≠ 5) :
    (exposeHistory UseHist S R2 gpHistOld gpHist).2 i = R2 i := by
  unfold exposeHistory
  split_ifs <;> simp [Function.update_noteq hi]

theorem historyUpdate_rank2_of_ne (f : Frame K) (gpHistOld gpHist : ℕ → K) (i : ℕ)
    (hi : i ≠ 3) : (historyUpdate f gpHistOld gpHist).1 i = f.mate._Rank2Materials i := by
  unfold historyUpdate
  split_ifs <;> simp [Function.update_noteq hi]

/-- The stored stress `_Rank2Materials[1]` of a completed call is the one written by the
decomposition branch. -/
theorem Miehe_stored_stress [FloorRing K] (spectral : RankTwoTensor K → SpectralResult K) (sqrt : K → K)
    (p : GaussPoint K) (gpHist : ℕ → K) (self : MateSystem K) (h : 5 ≤ p.InputParams.length) :
    (MieheLinearElasticMaterial spectral sqrt p gpHist self).mate._Rank2Materials 1
      = (frameAfterDecomposition spectral p self).mate._Rank2Materials 1 := by
  unfold MieheLinearElasticMaterial
  rw [if_neg (by omega)]
  simp only []
  rw [diagnostics_rank2_of_ne _ _ _ _ _ _ _ 1 (by decide),
    exposeHistory_rank2_of_ne _ _ _ _ _ 1 (by decide),
    historyUpdate_rank2_of_ne _ _ _ 1 (by decide)]

/-! ### Zero displacement gradient -/

theorem setupFrame_strain_of_zero_gradient (p : GaussPoint K) (self : MateSystem K)
    (hgrad : ∀ i j, p.gpGradU i j = 0) : (setupFrame p self).Strain = 0 := by
  funext i j
  simp only [setupFrame, RankTwoTensor.scale, RankTwoTensor.Transpose, Pi.add_apply]
  split_ifs <;>
    simp [RankTwoTensor.SetFromGradU2, RankTwoTensor.SetFromGradU3, hgrad]

theorem RankFourTensor.DoubleDot_zero (C : RankFourTensor K) :
    RankFourTensor.DoubleDot C 0 = 0 := by
  funext i j
  simp [RankFourTensor.DoubleDot]

theorem strainDecomposition_of_zero_strain (spectral : RankTwoTensor K → SpectralResult K)
    (lambda mu : K) (p : GaussPoint K) (f : Frame K) (hS : f.Strain = 0) :
    (strainDecomposition spectral lambda mu p f).Stress = 0
      ∧ (strainDecomposition spectral lambda mu p f).mate._Rank2Materials 1 = 0
      ∧ (strainDecomposition spectral lambda mu p f).PsiPos = 0
      ∧ (strainDecomposition spectral lambda mu p f).PsiNeg = 0
      ∧ (strainDecomposition spectral lambda mu p f).Psi = 0 := by
  have hstress : (strainDecomposition spectral lambda mu p f).Stress = 0 := by
    funext i j
    simp [strainDecomposition, hS, RankFourTensor.DoubleDot_zero, RankTwoTensor.Trace,
      RankTwoTensor.scale]
  have hpos : (strainDecomposition spectral lambda mu p f).PsiPos = 0 := by
    simp [strainDecomposition, hS, RankFourTensor.DoubleDot_zero, RankTwoTensor.Trace,
      RankTwoTensor.mul]
  have hneg : (strainDecomposition spectral lambda mu p f).PsiNeg = 0 := by
    simp [strainDecomposition, hS, RankFourTensor.DoubleDot_zero, RankTwoTensor.Trace,
      RankTwoTensor.mul]
  refine ⟨hstress, ?_, hpos, hneg, ?_⟩
  · have hst : (strainDecomposition spectral lambda mu p f).mate._Rank2Materials 1
        = (strainDecomposition spectral lambda mu p f).Stress := by
      simp [strainDecomposition]
    rw [hst, hstress]
  · have hpsi : (strainDecomposition spectral lambda mu p f).Psi
        = (1 - (strainDecomposition spectral lambda mu p f).d)
            * (1 - (strainDecomposition spectral lambda mu p f).d)
            * (strainDecomposition spectral lambda mu p f).PsiPos
          + (strainDecomposition spectral lambda mu p f).PsiNeg := rfl
    rw [hpsi, hpos, hneg]
    ring

theorem stressDecomposition_of_zero_strain (spectral : RankTwoTensor K → SpectralResult K)
    (EE nu : K) (p : GaussPoint K) (f : Frame K) (hS : f.Strain = 0) :
    (stressDecomposition spectral EE nu p f).Stress = 0
      ∧ (stressDecomposition spectral EE nu p f).mate._Rank2Materials 1 = 0
      ∧ (stressDecomposition spectral EE nu p f).PsiPos = 0
      ∧ (stressDecomposition spectral EE nu p f).PsiNeg = 0
      ∧ (stressDecomposition spectral EE nu p f).Psi = 0 := by
  have hstress : (stressDecomposition spectral EE nu p f).Stress = 0 := by
    simp [stressDecomposition, hS, RankFourTensor.DoubleDot_zero]
  have hpos : (stressDecomposition spectral EE nu p f).PsiPos = 0 := by
    simp [stressDecomposition, hS, RankFourTensor.DoubleDot_zero, RankTwoTensor.DoubleDot]
  have hneg : (stressDecomposition spectral EE nu p f).PsiNeg = 0 := by
    simp [stressDecomposition, hS, RankFourTensor.DoubleDot_zero, RankTwoTensor.DoubleDot]
  refine ⟨hstress, ?_, hpos, hneg, ?_⟩
  · funext i j
    simp [stressDecomposition, hS, RankFourTensor.DoubleDot_zero, RankTwoTensor.scale]
  · have hpsi : (stressDecomposition spectral EE nu p f).Psi
        = (1 - (stressDecomposition spectral EE nu p f).d)
            * (1 - (stressDecomposition spectral EE nu p f).d)
            * (stressDecomposition spectral EE nu p f).PsiPos
          + (stressDecomposition spectral EE nu p f).PsiNeg := rfl
    rw [hpsi, hpos, hneg]
    ring

/-- C8 (amended): for every parameter list with at least 5 entries whose Poisson ratio is
neither `1/2` nor `-1` (the divisors `(1+nu)*(1-2*nu)` and `2*(1+nu)` of lines 73-74 are
not zero), every damage value, every spectral projection and either decomposition mode, a
zero displacement gradient gives a call that returns finite values with zero `Stress` (the
local and the stored `_Rank2Materials[1]`), `PsiPos = PsiNeg = Psi = 0` and
`gpHist[0] = max(0, gpHistOld[0])`; on a fresh point (`gpHistOld[0] = 0`) this is
`gpHist[0] = 0`. -/
theorem zero_gradient_zero_response [FloorRing K] (spectral : RankTwoTensor K → SpectralResult K)
    (sqrt : K → K) (p : GaussPoint K) (gpHist : ℕ → K) (self : MateSystem K)
    (h5 : 5 ≤ p.InputParams.length)
    (hd1 : (1 + p.InputParams.getD 1 0) * (1 - 2 * p.InputParams.getD 1 0) ≠ 0)
    (hd2 : 2 * (1 + p.InputParams.getD 1 0) ≠ 0)
    (hgrad : ∀ i j, p.gpGradU i j = 0) :
    (MieheLinearElasticMaterial spectral sqrt p gpHist self).outcome = Outcome.returned
      ∧ (frameAfterDecomposition spectral p self).Stress = 0
      ∧ (MieheLinearElasticMaterial spectral sqrt p gpHist self).mate._Rank2Materials 1 = 0
      ∧ (frameAfterDecomposition spectral p self).PsiPos = 0
      ∧ (frameAfterDecomposition spectral p self).PsiNeg = 0
      ∧ (frameAfterDecomposition spectral p self).Psi = 0
      ∧ (MieheLinearElasticMaterial spectral sqrt p gpHist self).gpHist 0
          = max 0 (p.gpHistOld 0)
      ∧ (p.gpHistOld 0 = 0 →
          (MieheLinearElasticMaterial spectral sqrt p gpHist self).gpHist 0 = 0) := by
  have hS := setupFrame_strain_of_zero_gradient p self hgrad
  have hF : (frameAfterDecomposition spectral p self).Stress = 0
      ∧ (frameAfterDecomposition spectral p self).mate._Rank2Materials 1 = 0
      ∧ (frameAfterDecomposition spectral p self).PsiPos = 0
      ∧ (frameAfterDecomposition spectral p self).PsiNeg = 0
      ∧ (frameAfterDecomposition spectral p self).Psi = 0 := by
    rcases parseDecompositionMode_cases p.InputParams with hm | hm
    · rw [frameAfterDecomposition_of_strain_mode spectral p self hm]
      exact strainDecomposition_of_zero_strain spectral _ _ p _ hS
    · rw [frameAfterDecomposition_of_stress_mode spectral p self hm]
      exact stressDecomposition_of_zero_strain spectral _ _ p _ hS
  obtain ⟨h1, h2, h3, h4, h6⟩ := hF
  have hg : (MieheLinearElasticMaterial spectral sqrt p gpHist self).gpHist 0
      = max 0 (p.gpHistOld 0) := by
    rw [Miehe_gpHist_of_long spectral sqrt p gpHist self h5, historyUpdate_hist_zero, h3]
  refine ⟨?_, h1, ?_, h3, h4, h6, hg, ?_⟩
  · rw [Miehe_outcome_of_long spectral sqrt p gpHist self h5]
    exact lameOutcome_of_ne_zero _ hd1 hd2
  · rw [Miehe_stored_stress spectral sqrt p gpHist self h5, h2]
  · intro h0
    rw [hg, h0, max_self]

/-- Witness for C8: the scenario `E = 210e3`, `nu = 0.3`, `Gc = 2.7`, `L = 0.02`,
viscosity `0`, zero displacement gradient, `d = 0`, fresh point. -/
theorem zero_gradient_zero_response_witness :
    (MieheLinearElasticMaterial axisSpectral Rat.sqrt restPoint (fun _ => 0)
        zeroBanks).outcome = Outcome.returned
      ∧ (MieheLinearElasticMaterial axisSpectral Rat.sqrt restPoint (fun _ => 0)
        zeroBanks).mate._Rank2Materials 1 = 0
      ∧ (frameAfterDecomposition axisSpectral restPoint zeroBanks).Psi = 0
      ∧ (MieheLinearElasticMaterial axisSpectral Rat.sqrt restPoint (fun _ => 0)
        zeroBanks).gpHist 0 = 0 := by
  have h := zero_gradient_zero_response axisSpectral Rat.sqrt restPoint (fun _ => 0) zeroBanks
    (by decide) (by norm_num [restPoint, scenarioParams])
    (by norm_num [restPoint, scenarioParams]) (fun _ _ => rfl)
  exact ⟨h.1, h.2.2.1, h.2.2.2.2.2.1, h.2.2.2.2.2.2.2 rfl⟩

/-- Counterexample for C8: with `nu = 1/2` (and the other four parameters of the scenario,
zero displacement gradient, `d = 0`, fresh point) the divisor `(1+nu)*(1-2*nu)` of line 73
is zero, so `lambda` is not a finite number and the call does not return the zero response:
its outcome is `nonFinite`. -/
theorem zero_gradient_nonFinite_at_half :
    5 ≤ incompressiblePoint.InputParams.length
      ∧ (∀ i j, incompressiblePoint.gpGradU i j = 0)
      ∧ (1 + incompressiblePoint.InputParams.getD 1 0)
          * (1 - 2 * incompressiblePoint.InputParams.getD 1 0) = 0
      ∧ (MieheLinearElasticMaterial axisSpectral Rat.sqrt incompressiblePoint (fun _ => 0)
          zeroBanks).outcome = Outcome.nonFinite
      ∧ (MieheLinearElasticMaterial axisSpectral Rat.sqrt incompressiblePoint (fun _ => 0)
          zeroBanks).outcome ≠ Outcome.returned := by
  have hd : (1 + incompressiblePoint.InputParams.getD 1 0)
      * (1 - 2 * incompressiblePoint.InputParams.getD 1 0) = 0 := by
    norm_num [incompressiblePoint]
  have ho : (MieheLinearElasticMaterial axisSpectral Rat.sqrt incompressiblePoint (fun _ => 0)
      zeroBanks).outcome = Outcome.nonFinite := by
    rw [Miehe_outcome_of_long axisSpectral Rat.sqrt incompressiblePoint (fun _ => 0) zeroBanks
      (by decide)]
    unfold lameOutcome
    rw [if_pos (Or.inl hd)]
  refine ⟨by decide, fun _ _ => rfl, hd, ho, ?_⟩
  rw [ho]
  decide

/-! ### Strain without a negative eigenvalue, strain-based branch -/

theorem strainDecomposition_of_nonneg (spectral : RankTwoTensor K → SpectralResult K)
    (lambda mu : K) (p : GaussPoint K) (f : Frame K)
    (hc : IsSpectralProjection f.Strain (spectral f.Strain))
    (hpos : ∀ a, 0 ≤ (spectral f.Strain).eigval a) :
    (∀ i j, (strainDecomposition spectral lambda mu p f).StressPos i j
        = lambda * RankTwoTensor.Trace f.Strain * RankTwoTensor.SetToIdentity i j
          + 2 * mu * f.Strain i j)
      ∧ (strainDecomposition spectral lambda mu p f).StressNeg = 0
      ∧ (strainDecomposition spectral lambda mu p f).PsiPos
          = 1 / 2 * lambda * RankTwoTensor.Trace f.Strain * RankTwoTensor.Trace f.Strain
            + mu * RankTwoTensor.Trace (RankTwoTensor.mul f.Strain f.Strain)
      ∧ (strainDecomposition spectral lambda mu p f).PsiNeg = 0
      ∧ (∀ i j, (strainDecomposition spectral lambda mu p f).mate._Rank2Materials 1 i j
          = degradation (clampDamage (p.gpU p.nDim))
            * (lambda * RankTwoTensor.Trace f.Strain * RankTwoTensor.SetToIdentity i j
                + 2 * mu * f.Strain i j)) := by
  have hP := positivePart_of_nonneg _ _ hc hpos
  have htr := trace_nonneg_of_nonneg _ _ hc hpos
  refine ⟨?_, ?_, ?_, ?_, ?_⟩
  · intro i j
    simp [strainDecomposition, hP, abs_of_nonneg htr, RankTwoTensor.scale]
    ring
  · funext i j
    simp [strainDecomposition, hP, abs_of_nonneg htr, RankTwoTensor.scale]
  · simp [strainDecomposition, hP, abs_of_nonneg htr]
    ring
  · have htr2 : 0 ≤ ∑ i, f.Strain i i := htr
    simp [strainDecomposition, hP, abs_of_nonneg htr2, RankTwoTensor.mul, RankTwoTensor.Trace]
  · intro i j
    simp [strainDecomposition, hP, abs_of_nonneg htr, RankTwoTensor.scale, degradation]
    ring

/-! ### The staggered flag -/

theorem parseUseHist_eq_zero [FloorRing K] (InputParams : List K) : parseUseHist InputParams = 0 := by
  unfold parseUseHist
  split_ifs <;> rfl

theorem Miehe_exposed_history [FloorRing K] (spectral : RankTwoTensor K → SpectralResult K) (sqrt : K → K)
    (p : GaussPoint K) (gpHist : ℕ → K) (self : MateSystem K) (h : 5 ≤ p.InputParams.length) :
    (MieheLinearElasticMaterial spectral sqrt p gpHist self).mate._ScalarMaterials 20
        = (MieheLinearElasticMaterial spectral sqrt p gpHist self).gpHist 0
      ∧ (MieheLinearElasticMaterial spectral sqrt p gpHist self).mate._Rank2Materials 5
        = (MieheLinearElasticMaterial spectral sqrt p gpHist self).mate._Rank2Materials 3
      ∧ (MieheLinearElasticMaterial spectral sqrt p gpHist self).mate._Rank2Materials 3
        = (historyUpdate (frameAfterDecomposition spectral p self) p.gpHistOld gpHist).1 3 := by
  unfold MieheLinearElasticMaterial
  rw [if_neg (by omega)]
  simp only []
  rw [diagnostics_scalar_20, diagnostics_rank2_of_ne _ _ _ _ _ _ _ 5 (by decide),
    diagnostics_rank2_of_ne _ _ _ _ _ _ _ 3 (by decide),
    exposeHistory_rank2_of_ne _ _ _ _ _ 3 (by decide), parseUseHist_eq_zero]
  simp [exposeHistory]

theorem setupFrame_strain_staggered :
    (setupFrame staggeredPoint zeroBanks).Strain
      = fun i j => if i = 0 ∧ j = 0 then 1 / 1000 else 0 := by
  funext i j
  simp only [setupFrame, staggeredPoint, RankTwoTensor.scale, RankTwoTensor.Transpose,
    Pi.add_apply, Function.update_same, if_true]
  fin_cases i <;> fin_cases j <;> simp [RankTwoTensor.SetFromGradU2]
  norm_num

/-- C6, evaluation at the failing input: with the sixth parameter equal to `1` the call still
exposes the freshly computed history in `_ScalarMaterials[20]` (here larger than the old
history `gpHistOld[0] = 0`) and copies the non-zero history derivative `_Rank2Materials[3]`
into `_Rank2Materials[5]`. -/
theorem staggered_request_ignored :
    truncToInt (staggeredPoint.InputParams.getD (6 - 1) 0) = 1
      ∧ (MieheLinearElasticMaterial axisSpectral Rat.sqrt staggeredPoint (fun _ => 0)
          zeroBanks).mate._ScalarMaterials 20
        = (MieheLinearElasticMaterial axisSpectral Rat.sqrt staggeredPoint (fun _ => 0)
          zeroBanks).gpHist 0
      ∧ staggeredPoint.gpHistOld 0
        < (MieheLinearElasticMaterial axisSpectral Rat.sqrt staggeredPoint (fun _ => 0)
          zeroBanks).mate._ScalarMaterials 20
      ∧ (MieheLinearElasticMaterial axisSpectral Rat.sqrt staggeredPoint (fun _ => 0)
          zeroBanks).mate._Rank2Materials 5
        = (MieheLinearElasticMaterial axisSpectral Rat.sqrt staggeredPoint (fun _ => 0)
          zeroBanks).mate._Rank2Materials 3
      ∧ (MieheLinearElasticMaterial axisSpectral Rat.sqrt staggeredPoint (fun _ => 0)
          zeroBanks).mate._Rank2Materials 5 0 0 ≠ 0 := by
  have h5 : 5 ≤ staggeredPoint.InputParams.length := by decide
  have hmode : parseDecompositionMode staggeredPoint.InputParams = 0 := by decide
  obtain ⟨e1, e2, e3⟩ := Miehe_exposed_history axisSpectral Rat.sqrt staggeredPoint
    (fun _ => 0) zeroBanks h5
  have hg := Miehe_gpHist_of_long axisSpectral Rat.sqrt staggeredPoint (fun _ => 0) zeroBanks h5
  have hdiag : ∀ i j : Fin 3, i ≠ j → (setupFrame staggeredPoint zeroBanks).Strain i j = 0 := by
    intro i j hij
    rw [setupFrame_strain_staggered]
    fin_cases i <;> fin_cases j <;> simp at hij ⊢
  have hc := axisSpectral_isSpectralProjection _ hdiag
  have hpos : ∀ a, 0 ≤ (axisSpectral (setupFrame staggeredPoint zeroBanks).Strain).eigval a := by
    intro a
    rw [setupFrame_strain_staggered]
    fin_cases a <;> simp [axisSpectral]
  obtain ⟨s1, -, s3, -, -⟩ := strainDecomposition_of_nonneg axisSpectral
    (lameLambda (staggeredPoint.InputParams.getD 0 0) (staggeredPoint.InputParams.getD 1 0))
    (lameMu (staggeredPoint.InputParams.getD 0 0) (staggeredPoint.InputParams.getD 1 0))
    staggeredPoint (setupFrame staggeredPoint zeroBanks) hc hpos
  rw [← frameAfterDecomposition_of_strain_mode axisSpectral staggeredPoint zeroBanks hmode]
    at s1 s3
  have hPsi : (0 : ℚ) < (frameAfterDecomposition axisSpectral staggeredPoint zeroBanks).PsiPos := by
    rw [s3, setupFrame_strain_staggered]
    have f20 : (2 : Fin 3) ≠ 0 := by decide
    norm_num [RankTwoTensor.Trace, RankTwoTensor.mul, Fin.sum_univ_three, lameLambda, lameMu,
      staggeredPoint, f20]
  have hold : staggeredPoint.gpHistOld 0 = 0 := rfl
  have hge : (frameAfterDecomposition axisSpectral staggeredPoint zeroBanks).PsiPos
      ≥ staggeredPoint.gpHistOld 0 := by
    rw [hold]; exact hPsi.le
  refine ⟨?_, e1, ?_, e2, ?_⟩
  · simp [staggeredPoint, truncToInt]
  · rw [e1, hg, historyUpdate_hist_zero, hold, max_eq_left hPsi.le]
    exact hPsi
  · rw [e2, e3]
    unfold historyUpdate
    rw [if_pos hge]
    simp only [Function.update_same]
    rw [s1 0 0, setupFrame_strain_staggered]
    have f20 : (2 : Fin 3) ≠ 0 := by decide
    norm_num [RankTwoTensor.Trace, RankTwoTensor.SetToIdentity, Fin.sum_univ_three, lameLambda,
      lameMu, staggeredPoint, f20]

/-! ### Quadratic forms and eigenvalues -/

theorem quadratic_form_of_decomposition (A : RankTwoTensor K) (r : SpectralResult K)
    (h : IsSpectralProjection A r) (x : Fin 3 → K) :
    ∑ i, ∑ j, x i * A i j * x j = ∑ a, r.eigval a * (∑ i, x i * r.eigvec i a) ^ 2 := by
  have hd := h.decomposition
  simp only [hd, Fin.sum_univ_three]
  ring

theorem eigval_eq_quadratic_form (A : RankTwoTensor K) (r : SpectralResult K)
    (h : IsSpectralProjection A r) (a : Fin 3) :
    r.eigval a = ∑ i, ∑ j, r.eigvec i a * A i j * r.eigvec j a := by
  rw [quadratic_form_of_decomposition A r h (fun i => r.eigvec i a)]
  simp only [h.orthonormal]
  simp

theorem symmetric_of_decomposition (A : RankTwoTensor K) (r : SpectralResult K)
    (h : IsSpectralProjection A r) (i j : Fin 3) : A i j = A j i := by
  rw [h.decomposition i j, h.decomposition j i]
  refine Finset.sum_congr rfl (fun a _ => ?_)
  ring

/-! ### The stress-based branch -/

theorem SetFromEandNu_doubleDot (EE nu : K) (A : RankTwoTensor K) (i j : Fin 3) :
    RankFourTensor.DoubleDot (RankFourTensor.SetFromEandNu EE nu) A i j
      = lameLambda EE nu * RankTwoTensor.Trace A * RankTwoTensor.SetToIdentity i j
        + lameMu EE nu * (A i j + A j i) := by
  fin_cases i <;> fin_cases j <;>
    simp [RankFourTensor.DoubleDot, RankFourTensor.SetFromEandNu, RankTwoTensor.Trace,
      RankTwoTensor.SetToIdentity, Fin.sum_univ_three, lameLambda, lameMu] <;>
    ring

/-- With non-negative Lamé constants, the elastic stress of a strain without a negative
eigenvalue has no negative eigenvalue either. -/
theorem elastic_stress_eigval_nonneg (EE nu : K) (Strain : RankTwoTensor K)
    (r s : SpectralResult K) (hr : IsSpectralProjection Strain r)
    (hs : IsSpectralProjection
      (RankFourTensor.DoubleDot (RankFourTensor.SetFromEandNu EE nu) Strain) s)
    (hpos : ∀ a, 0 ≤ r.eigval a) (hl : 0 ≤ lameLambda EE nu) (hm : 0 ≤ lameMu EE nu)
    (a : Fin 3) : 0 ≤ s.eigval a := by
  rw [eigval_eq_quadratic_form _ s hs a]
  have hq := quadratic_form_of_decomposition Strain r hr (fun i => s.eigvec i a)
  have htr := trace_nonneg_of_nonneg Strain r hr hpos
  have hsplit : ∑ i, ∑ j, s.eigvec i a
        * RankFourTensor.DoubleDot (RankFourTensor.SetFromEandNu EE nu) Strain i j
        * s.eigvec j a
      = lameLambda EE nu * RankTwoTensor.Trace Strain * (∑ i, s.eigvec i a * s.eigvec i a)
        + 2 * lameMu EE nu * (∑ i, ∑ j, s.eigvec i a * Strain i j * s.eigvec j a) := by
    simp only [SetFromEandNu_doubleDot, RankTwoTensor.SetToIdentity, Fin.sum_univ_three]
    simp
    ring
  rw [hsplit, hq]
  have h1 : 0 ≤ ∑ i, s.eigvec i a * s.eigvec i a :=
    Finset.sum_nonneg (fun i _ => mul_self_nonneg _)
  have h2 : 0 ≤ ∑ c, r.eigval c * (∑ i, s.eigvec i a * r.eigvec i c) ^ 2 :=
    Finset.sum_nonneg (fun c _ => mul_nonneg (hpos c) (sq_nonneg _))
  have h3 : 0 ≤ lameLambda EE nu * RankTwoTensor.Trace Strain := mul_nonneg hl htr
  have h4 : 0 ≤ 2 * lameMu EE nu := by linarith
  exact add_nonneg (mul_nonneg h3 h1) (mul_nonneg h4 h2)

theorem stressDecomposition_of_nonneg (spectral : RankTwoTensor K → SpectralResult K)
    (EE nu : K) (p : GaussPoint K) (f : Frame K)
    (hc : IsSpectralProjection
      (RankFourTensor.DoubleDot (RankFourTensor.SetFromEandNu EE nu) f.Strain)
      (spectral (RankFourTensor.DoubleDot (RankFourTensor.SetFromEandNu EE nu) f.Strain)))
    (hpos : ∀ a, 0 ≤ (spectral
      (RankFourTensor.DoubleDot (RankFourTensor.SetFromEandNu EE nu) f.Strain)).eigval a) :
    (stressDecomposition spectral EE nu p f).StressPos
        = RankFourTensor.DoubleDot (RankFourTensor.SetFromEandNu EE nu) f.Strain
      ∧ (stressDecomposition spectral EE nu p f).StressNeg = 0
      ∧ (stressDecomposition spectral EE nu p f).PsiPos
          = 1 / 2 * RankTwoTensor.DoubleDot
              (RankFourTensor.DoubleDot (RankFourTensor.SetFromEandNu EE nu) f.Strain) f.Strain
      ∧ (stressDecomposition spectral EE nu p f).PsiNeg = 0
      ∧ (∀ i j, (stressDecomposition spectral EE nu p f).mate._Rank2Materials 1 i j
          = degradation (clampDamage (p.gpU p.nDim))
            * RankFourTensor.DoubleDot (RankFourTensor.SetFromEandNu EE nu) f.Strain i j) := by
  have hP := positivePart_of_nonneg _ _ hc hpos
  refine ⟨?_, ?_, ?_, ?_, ?_⟩
  · simp [stressDecomposition, hP]
  · simp [stressDecomposition, hP]
  · simp [stressDecomposition, hP]
  · simp [stressDecomposition, hP, RankTwoTensor.DoubleDot]
  · intro i j
    simp [stressDecomposition, hP, RankTwoTensor.scale, degradation]
    ring

theorem clampDamage_bounds (u : K) : 1 / 100 ≤ clampDamage u ∧ clampDamage u ≤ 99 / 100 := by
  unfold clampDamage
  by_cases h1 : u < 1 / 100
  · simp only [h1, if_true]; norm_num
  · by_cases h2 : u > 1 - 1 / 100
    · simp only [h1, h2, if_true, if_false]; norm_num
    · simp only [h1, h2, if_false]
      constructor <;> linarith

/-! ### The two decomposition modes on a strain without compressive part -/

theorem setupFrame_strain_congr (p0 p1 : GaussPoint K) (self : MateSystem K)
    (hdim : p0.nDim = p1.nDim) (hG : p0.gpGradU = p1.gpGradU) :
    (setupFrame p0 self).Strain = (setupFrame p1 self).Strain := by
  simp only [setupFrame, hdim, hG]

theorem elastic_energy_symmetric (EE nu : K) (A : RankTwoTensor K)
    (hsym : ∀ i j, A i j = A j i) :
    RankTwoTensor.DoubleDot (RankFourTensor.DoubleDot (RankFourTensor.SetFromEandNu EE nu) A) A
      = lameLambda EE nu * RankTwoTensor.Trace A * RankTwoTensor.Trace A
        + 2 * lameMu EE nu * RankTwoTensor.Trace (RankTwoTensor.mul A A) := by
  have h10 := hsym 1 0
  have h20 := hsym 2 0
  have h21 := hsym 2 1
  simp only [RankTwoTensor.DoubleDot, SetFromEandNu_doubleDot, RankTwoTensor.Trace,
    RankTwoTensor.mul, RankTwoTensor.SetToIdentity, Fin.sum_univ_three]
  simp
  rw [h10, h20, h21]
  ring

theorem degradation_clampDamage_lt_one (u : K) : degradation (clampDamage u) < 1 := by
  obtain ⟨h1, h2⟩ := clampDamage_bounds u
  unfold degradation kResidual
  nlinarith

theorem elastic_stress_symm (EE nu : K) (A : RankTwoTensor K) (i j : Fin 3) :
    RankFourTensor.DoubleDot (RankFourTensor.SetFromEandNu EE nu) A i j
      = RankFourTensor.DoubleDot (RankFourTensor.SetFromEandNu EE nu) A j i := by
  rw [SetFromEandNu_doubleDot, SetFromEandNu_doubleDot]
  have hI : (RankTwoTensor.SetToIdentity : RankTwoTensor K) i j
      = RankTwoTensor.SetToIdentity j i := by
    unfold RankTwoTensor.SetToIdentity
    by_cases h : i = j
    · rw [if_pos h, if_pos h.symm]
    · rw [if_neg h, if_neg (fun h2 => h h2.symm)]
  rw [hI]
  ring

theorem stressDecomposition_stored (spectral : RankTwoTensor K → SpectralResult K)
    (EE nu : K) (p : GaussPoint K) (f : Frame K) (i j : Fin 3) :
    (stressDecomposition spectral EE nu p f).mate._Rank2Materials 1 i j
      = degradation (clampDamage (p.gpU p.nDim))
          * RankFourTensor.DoubleDot
              (spectral (RankFourTensor.DoubleDot (RankFourTensor.SetFromEandNu EE nu)
                f.Strain)).ProjPos
              (RankFourTensor.DoubleDot (RankFourTensor.SetFromEandNu EE nu) f.Strain) i j
        + (RankFourTensor.DoubleDot (RankFourTensor.SetFromEandNu EE nu) f.Strain i j
            - RankFourTensor.DoubleDot
                (spectral (RankFourTensor.DoubleDot (RankFourTensor.SetFromEandNu EE nu)
                  f.Strain)).ProjPos
                (RankFourTensor.DoubleDot (RankFourTensor.SetFromEandNu EE nu) f.Strain) i j) := by
  simp [stressDecomposition, RankTwoTensor.scale, degradation]
  ring

/-- A tensor that equals its own positive part has no negative eigenvalue. -/
theorem eigval_nonneg_of_eq_positivePart (A : RankTwoTensor K) (r : SpectralResult K)
    (h : IsSpectralProjection A r) (heq : ∀ i j, A i j = r.PositivePart i j) (a : Fin 3) :
    0 ≤ r.eigval a := by
  have h2 : IsSpectralProjection A ⟨r.ProjPos, fun c => max (r.eigval c) 0, r.eigvec⟩ := by
    refine ⟨h.orthonormal, heq, ?_⟩
    show RankFourTensor.DoubleDot r.ProjPos A = _
    rw [h.positive_part]
    funext i j
    simp [SpectralResult.PositivePart]
  have e1 := eigval_eq_quadratic_form A r h a
  have e2 := eigval_eq_quadratic_form A _ h2 a
  have e3 : r.eigval a = max (r.eigval a) 0 := e1.trans e2.symm
  rw [e3]
  exact le_max_right _ _

/-- In the stress-based branch the stored stress is the degraded elastic stress exactly when
the elastic stress has no negative eigenvalue. -/
theorem stressDecomposition_stored_eq_iff (spectral : RankTwoTensor K → SpectralResult K)
    (EE nu : K) (p : GaussPoint K) (f : Frame K)
    (hc : IsSpectralProjection
      (RankFourTensor.DoubleDot (RankFourTensor.SetFromEandNu EE nu) f.Strain)
      (spectral (RankFourTensor.DoubleDot (RankFourTensor.SetFromEandNu EE nu) f.Strain))) :
    (∀ i j, (stressDecomposition spectral EE nu p f).mate._Rank2Materials 1 i j
        = degradation (clampDamage (p.gpU p.nDim))
          * RankFourTensor.DoubleDot (RankFourTensor.SetFromEandNu EE nu) f.Strain i j)
      ↔ ∀ a, 0 ≤ (spectral
          (RankFourTensor.DoubleDot (RankFourTensor.SetFromEandNu EE nu) f.Strain)).eigval a := by
  constructor
  · intro h a
    refine eigval_nonneg_of_eq_positivePart _ _ hc (fun i j => ?_) a
    have e := h i j
    rw [stressDecomposition_stored] at e
    have hlt := degradation_clampDamage_lt_one (p.gpU p.nDim)
    have hz : (1 - degradation (clampDamage (p.gpU p.nDim)))
        * (RankFourTensor.DoubleDot (RankFourTensor.SetFromEandNu EE nu) f.Strain i j
          - RankFourTensor.DoubleDot
              (spectral (RankFourTensor.DoubleDot (RankFourTensor.SetFromEandNu EE nu)
                f.Strain)).ProjPos
              (RankFourTensor.DoubleDot (RankFourTensor.SetFromEandNu EE nu) f.Strain) i j)
        = 0 := by
      linear_combination e
    rcases mul_eq_zero.mp hz with h0 | h0
    · linarith
    · rw [← hc.positive_part]
      linarith
  · intro hpos
    exact (stressDecomposition_of_nonneg spectral EE nu p f hc hpos).2.2.2.2

/-- Two calls that differ only in the decomposition mode, on a strain with positive
eigenvalues: the stored stresses agree exactly when the elastic stress has no negative
eigenvalue, and then `Psi`, `PsiPos` and `gpHist[0]` agree as well. -/
theorem modes_agree_of_stress_nonneg [FloorRing K] (spectral : RankTwoTensor K → SpectralResult K)
    (sqrt : K → K) (p0 p1 : GaussPoint K) (gpHist : ℕ → K) (self : MateSystem K)
    (h50 : 5 ≤ p0.InputParams.length) (h51 : 5 ≤ p1.InputParams.length)
    (hm0 : parseDecompositionMode p0.InputParams = 0)
    (hm1 : parseDecompositionMode p1.InputParams = 1)
    (hE : p0.InputParams.getD 0 0 = p1.InputParams.getD 0 0)
    (hnu : p0.InputParams.getD 1 0 = p1.InputParams.getD 1 0)
    (hdim : p0.nDim = p1.nDim) (hU : p0.gpU = p1.gpU) (hG : p0.gpGradU = p1.gpGradU)
    (hH : p0.gpHistOld = p1.gpHistOld)
    (hc : IsSpectralProjection (frameAfterDecomposition spectral p0 self).Strain
      (spectral (frameAfterDecomposition spectral p0 self).Strain))
    (hpos : ∀ a, 0 < (spectral (frameAfterDecomposition spectral p0 self).Strain).eigval a)
    (hcs : IsSpectralProjection (frameAfterDecomposition spectral p1 self).Stress
      (spectral (frameAfterDecomposition spectral p1 self).Stress)) :
    ((∀ a, 0 ≤ (spectral (frameAfterDecomposition spectral p1 self).Stress).eigval a) →
        (MieheLinearElasticMaterial spectral sqrt p0 gpHist self).mate._Rank2Materials 1
            = (MieheLinearElasticMaterial spectral sqrt p1 gpHist self).mate._Rank2Materials 1
          ∧ (frameAfterDecomposition spectral p0 self).Psi
            = (frameAfterDecomposition spectral p1 self).Psi
          ∧ (frameAfterDecomposition spectral p0 self).PsiPos
            = (frameAfterDecomposition spectral p1 self).PsiPos
          ∧ (MieheLinearElasticMaterial spectral sqrt p0 gpHist self).gpHist 0
            = (MieheLinearElasticMaterial spectral sqrt p1 gpHist self).gpHist 0)
      ∧ ((MieheLinearElasticMaterial spectral sqrt p0 gpHist self).mate._Rank2Materials 1
            = (MieheLinearElasticMaterial spectral sqrt p1 gpHist self).mate._Rank2Materials 1
          ↔ ∀ a, 0 ≤ (spectral (frameAfterDecomposition spectral p1 self).Stress).eigval a)
      ∧ (0 ≤ lameLambda (p0.InputParams.getD 0 0) (p0.InputParams.getD 1 0) →
          0 ≤ lameMu (p0.InputParams.getD 0 0) (p0.InputParams.getD 1 0) →
          ∀ a, 0 ≤ (spectral (frameAfterDecomposition spectral p1 self).Stress).eigval a) := by
  have hS := setupFrame_strain_congr p0 p1 self hdim hG
  rw [frameAfterDecomposition_of_strain_mode spectral p0 self hm0] at hc hpos
  rw [frameAfterDecomposition_of_stress_mode spectral p1 self hm1] at hcs
  have hc0 : IsSpectralProjection (setupFrame p0 self).Strain
      (spectral (setupFrame p0 self).Strain) := hc
  have hpos0 : ∀ a, 0 ≤ (spectral (setupFrame p0 self).Strain).eigval a :=
    fun a => (hpos a).le
  have hc1 : IsSpectralProjection (setupFrame p1 self).Strain
      (spectral (setupFrame p1 self).Strain) := by
    rw [← hS]; exact hc0
  have hpos1 : ∀ a, 0 ≤ (spectral (setupFrame p1 self).Strain).eigval a := by
    rw [← hS]; exact hpos0
  have hcs1 : IsSpectralProjection
      (RankFourTensor.DoubleDot
        (RankFourTensor.SetFromEandNu (p1.InputParams.getD 0 0) (p1.InputParams.getD 1 0))
        (setupFrame p1 self).Strain)
      (spectral (RankFourTensor.DoubleDot
        (RankFourTensor.SetFromEandNu (p1.InputParams.getD 0 0) (p1.InputParams.getD 1 0))
        (setupFrame p1 self).Strain)) := hcs
  have hStress : (frameAfterDecomposition spectral p1 self).Stress
      = RankFourTensor.DoubleDot
        (RankFourTensor.SetFromEandNu (p1.InputParams.getD 0 0) (p1.InputParams.getD 1 0))
        (setupFrame p1 self).Strain := by
    rw [frameAfterDecomposition_of_stress_mode spectral p1 self hm1]
    rfl
  rw [hStress]
  obtain ⟨-, -, a3, a4, a5⟩ := strainDecomposition_of_nonneg spectral
    (lameLambda (p0.InputParams.getD 0 0) (p0.InputParams.getD 1 0))
    (lameMu (p0.InputParams.getD 0 0) (p0.InputParams.getD 1 0)) p0 (setupFrame p0 self)
    hc0 hpos0
  rw [← frameAfterDecomposition_of_strain_mode spectral p0 self hm0] at a3 a4 a5
  have hsym := symmetric_of_decomposition _ _ hc1
  have hstored0 : ∀ i j,
      (MieheLinearElasticMaterial spectral sqrt p0 gpHist self).mate._Rank2Materials 1 i j
        = degradation (clampDamage (p1.gpU p1.nDim))
          * RankFourTensor.DoubleDot
              (RankFourTensor.SetFromEandNu (p1.InputParams.getD 0 0)
                (p1.InputParams.getD 1 0))
              (setupFrame p1 self).Strain i j := by
    intro i j
    rw [Miehe_stored_stress spectral sqrt p0 gpHist self h50, a5 i j, SetFromEandNu_doubleDot,
      hS, hE, hnu, hU, hdim, ← hsym i j]
    ring
  have hiff := stressDecomposition_stored_eq_iff spectral (p1.InputParams.getD 0 0)
    (p1.InputParams.getD 1 0) p1 (setupFrame p1 self) hcs1
  have hstored : (MieheLinearElasticMaterial spectral sqrt p0 gpHist self).mate._Rank2Materials 1
        = (MieheLinearElasticMaterial spectral sqrt p1 gpHist self).mate._Rank2Materials 1
      ↔ ∀ a, 0 ≤ (spectral (RankFourTensor.DoubleDot
        (RankFourTensor.SetFromEandNu (p1.InputParams.getD 0 0) (p1.InputParams.getD 1 0))
        (setupFrame p1 self).Strain)).eigval a := by
    rw [← hiff, Miehe_stored_stress spectral sqrt p1 gpHist self h51,
      frameAfterDecomposition_of_stress_mode spectral p1 self hm1]
    constructor
    · intro h i j
      rw [← h, hstored0 i j]
    · intro h
      funext i j
      rw [h i j, hstored0 i j]
  refine ⟨?_, hstored, ?_⟩
  · intro hspos
    obtain ⟨-, -, b3, b4, -⟩ := stressDecomposition_of_nonneg spectral
      (p1.InputParams.getD 0 0) (p1.InputParams.getD 1 0) p1 (setupFrame p1 self) hcs1 hspos
    rw [← frameAfterDecomposition_of_stress_mode spectral p1 self hm1] at b3 b4
    have hd0 : (frameAfterDecomposition spectral p0 self).d = clampDamage (p0.gpU p0.nDim) := by
      rw [frameAfterDecomposition_of_strain_mode spectral p0 self hm0]; rfl
    have hd1 : (frameAfterDecomposition spectral p1 self).d = clampDamage (p1.gpU p1.nDim) := by
      rw [frameAfterDecomposition_of_stress_mode spectral p1 self hm1]; rfl
    have hpsi0 : (frameAfterDecomposition spectral p0 self).Psi
        = (1 - (frameAfterDecomposition spectral p0 self).d)
            * (1 - (frameAfterDecomposition spectral p0 self).d)
            * (frameAfterDecomposition spectral p0 self).PsiPos
          + (frameAfterDecomposition spectral p0 self).PsiNeg := by
      rw [frameAfterDecomposition_of_strain_mode spectral p0 self hm0]; rfl
    have hpsi1 : (frameAfterDecomposition spectral p1 self).Psi
        = (1 - (frameAfterDecomposition spectral p1 self).d)
            * (1 - (frameAfterDecomposition spectral p1 self).d)
            * (frameAfterDecomposition spectral p1 self).PsiPos
          + (frameAfterDecomposition spectral p1 self).PsiNeg := by
      rw [frameAfterDecomposition_of_stress_mode spectral p1 self hm1]; rfl
    have hPos : (frameAfterDecomposition spectral p0 self).PsiPos
        = (frameAfterDecomposition spectral p1 self).PsiPos := by
      rw [a3, b3, elastic_energy_symmetric _ _ _ hsym, hS, hE, hnu]
      ring
    refine ⟨hstored.mpr hspos, ?_, hPos, ?_⟩
    · rw [hpsi0, hpsi1, hd0, hd1, hPos, a4, b4, hU, hdim]
    · rw [Miehe_gpHist_of_long spectral sqrt p0 gpHist self h50,
        Miehe_gpHist_of_long spectral sqrt p1 gpHist self h51, historyUpdate_hist_zero,
        historyUpdate_hist_zero, hPos, hH]
  · intro hl hm
    exact elastic_stress_eigval_nonneg (p1.InputParams.getD 0 0)
      (p1.InputParams.getD 1 0) (setupFrame p1 self).Strain _ _ hc1 hcs1 hpos1
      (by rw [← hE, ← hnu]; exact hl) (by rw [← hE, ← hnu]; exact hm)

/-- C7 (amended): when the strain has only positive eigenvalues and both spectral
projections (of the strain in mode 0, of the elastic stress in mode 1) meet their contract,
two calls that differ only in the decomposition mode store the same stress
`_Rank2Materials[1]` exactly when the elastic stress has no negative eigenvalue, and then
they compute the same `Psi`, `PsiPos` and `gpHist[0]` as well; non-negative Lamé constants
are sufficient for the elastic stress to have no negative eigenvalue.  Over the real numbers
a projection that meets the contract on every symmetric tensor exists, and with every such
projection the two modes agree for every displacement gradient whose strain has only
positive eigenvalues and whose elastic stress has no negative eigenvalue. -/
theorem modes_agree_in_tension [FloorRing K] (spectral : RankTwoTensor K → SpectralResult K) (sqrt : K → K)
    (p0 p1 : GaussPoint K) (gpHist : ℕ → K) (self : MateSystem K)
    (h50 : 5 ≤ p0.InputParams.length) (h51 : 5 ≤ p1.InputParams.length)
    (hm0 : parseDecompositionMode p0.InputParams = 0)
    (hm1 : parseDecompositionMode p1.InputParams = 1)
    (hE : p0.InputParams.getD 0 0 = p1.InputParams.getD 0 0)
    (hnu : p0.InputParams.getD 1 0 = p1.InputParams.getD 1 0)
    (hdim : p0.nDim = p1.nDim) (hU : p0.gpU = p1.gpU) (hG : p0.gpGradU = p1.gpGradU)
    (hH : p0.gpHistOld = p1.gpHistOld)
    (hc : IsSpectralProjection (frameAfterDecomposition spectral p0 self).Strain
      (spectral (frameAfterDecomposition spectral p0 self).Strain))
    (hpos : ∀ a, 0 < (spectral (frameAfterDecomposition spectral p0 self).Strain).eigval a)
    (hcs : IsSpectralProjection (frameAfterDecomposition spectral p1 self).Stress
      (spectral (frameAfterDecomposition spectral p1 self).Stress)) :
    ((∀ a, 0 ≤ (spectral (frameAfterDecomposition spectral p1 self).Stress).eigval a) →
        (MieheLinearElasticMaterial spectral sqrt p0 gpHist self).mate._Rank2Materials 1
            = (MieheLinearElasticMaterial spectral sqrt p1 gpHist self).mate._Rank2Materials 1
          ∧ (frameAfterDecomposition spectral p0 self).Psi
            = (frameAfterDecomposition spectral p1 self).Psi
          ∧ (frameAfterDecomposition spectral p0 self).PsiPos
            = (frameAfterDecomposition spectral p1 self).PsiPos
          ∧ (MieheLinearElasticMaterial spectral sqrt p0 gpHist self).gpHist 0
            = (MieheLinearElasticMaterial spectral sqrt p1 gpHist self).gpHist 0)
      ∧ ((MieheLinearElasticMaterial spectral sqrt p0 gpHist self).mate._Rank2Materials 1
            = (MieheLinearElasticMaterial spectral sqrt p1 gpHist self).mate._Rank2Materials 1
          ↔ ∀ a, 0 ≤ (spectral (frameAfterDecomposition spectral p1 self).Stress).eigval a)
      ∧ (0 ≤ lameLambda (p0.InputParams.getD 0 0) (p0.InputParams.getD 1 0) →
          0 ≤ lameMu (p0.InputParams.getD 0 0) (p0.InputParams.getD 1 0) →
          ∀ a, 0 ≤ (spectral (frameAfterDecomposition spectral p1 self).Stress).eigval a)
      ∧ (∃ spectralR : RankTwoTensor ℝ → SpectralResult ℝ, MeetsSpectralContract spectralR)
      ∧ (∀ spectralR : RankTwoTensor ℝ → SpectralResult ℝ, MeetsSpectralContract spectralR →
          ∀ (sqrtR : ℝ → ℝ) (q0 q1 : GaussPoint ℝ) (gpHistR : ℕ → ℝ) (selfR : MateSystem ℝ),
            5 ≤ q0.InputParams.length → 5 ≤ q1.InputParams.length →
            parseDecompositionMode q0.InputParams = 0 →
            parseDecompositionMode q1.InputParams = 1 →
            q0.InputParams.getD 0 0 = q1.InputParams.getD 0 0 →
            q0.InputParams.getD 1 0 = q1.InputParams.getD 1 0 →
            q0.nDim = q1.nDim → q0.gpU = q1.gpU → q0.gpGradU = q1.gpGradU →
            q0.gpHistOld = q1.gpHistOld →
            (∀ a, 0 < (spectralR (frameAfterDecomposition spectralR q0 selfR).Strain).eigval a) →
            (∀ a, 0 ≤ (spectralR (frameAfterDecomposition spectralR q1 selfR).Stress).eigval a) →
            (MieheLinearElasticMaterial spectralR sqrtR q0 gpHistR selfR).mate._Rank2Materials 1
                = (MieheLinearElasticMaterial spectralR sqrtR q1 gpHistR selfR).mate._Rank2Materials 1
              ∧ (frameAfterDecomposition spectralR q0 selfR).Psi
                = (frameAfterDecomposition spectralR q1 selfR).Psi
              ∧ (frameAfterDecomposition spectralR q0 selfR).PsiPos
                = (frameAfterDecomposition spectralR q1 selfR).PsiPos
              ∧ (MieheLinearElasticMaterial spectralR sqrtR q0 gpHistR selfR).gpHist 0
                = (MieheLinearElasticMaterial spectralR sqrtR q1 gpHistR selfR).gpHist 0) := by
  obtain ⟨g1, g2, g3⟩ := modes_agree_of_stress_nonneg spectral sqrt p0 p1 gpHist self h50 h51
    hm0 hm1 hE hnu hdim hU hG hH hc hpos hcs
  refine ⟨g1, g2, g3, exists_spectral_real, ?_⟩
  intro spectralR hR sqrtR q0 q1 gpHistR selfR k50 k51 km0 km1 kE knu kdim kU kG kH kpos kspos
  have kc : IsSpectralProjection (frameAfterDecomposition spectralR q0 selfR).Strain
      (spectralR (frameAfterDecomposition spectralR q0 selfR).Strain) := by
    rw [frameAfterDecomposition_of_strain_mode spectralR q0 selfR km0]
    exact hR _ (setupFrame_strain_symm q0 selfR)
  have kcs : IsSpectralProjection (frameAfterDecomposition spectralR q1 selfR).Stress
      (spectralR (frameAfterDecomposition spectralR q1 selfR).Stress) := by
    rw [frameAfterDecomposition_of_stress_mode spectralR q1 selfR km1]
    exact hR _ (elastic_stress_symm _ _ _)
  exact (modes_agree_of_stress_nonneg spectralR sqrtR q0 q1 gpHistR selfR k50 k51 km0 km1 kE
    knu kdim kU kG kH kc kpos kcs).1 kspos

theorem setupFrame_strain_triaxial (nu mode : ℚ) :
    (setupFrame (triaxialPoint nu mode) zeroBanks).Strain
      = fun i j => if i = j then (if i = 2 then 1 / 100 else 1) else 0 := by
  funext i j
  simp only [setupFrame, triaxialPoint, RankTwoTensor.scale, RankTwoTensor.Transpose,
    Pi.add_apply, Function.update_same]
  fin_cases i <;> fin_cases j <;> simp [RankTwoTensor.SetFromGradU3]
  all_goals norm_num

theorem triaxial_strain_isSpectralProjection (nu mode : ℚ) :
    IsSpectralProjection (setupFrame (triaxialPoint nu mode) zeroBanks).Strain
      (axisSpectral (setupFrame (triaxialPoint nu mode) zeroBanks).Strain) := by
  refine axisSpectral_isSpectralProjection _ (fun i j hij => ?_)
  rw [setupFrame_strain_triaxial]
  simp [hij]

theorem triaxial_strain_eigval_pos (nu mode : ℚ) (a : Fin 3) :
    0 < (axisSpectral (setupFrame (triaxialPoint nu mode) zeroBanks).Strain).eigval a := by
  rw [setupFrame_strain_triaxial]
  fin_cases a <;> simp [axisSpectral]

theorem triaxial_stress_isSpectralProjection (nu mode : ℚ) :
    IsSpectralProjection
      (RankFourTensor.DoubleDot (RankFourTensor.SetFromEandNu 1 nu)
        (setupFrame (triaxialPoint nu mode) zeroBanks).Strain)
      (axisSpectral (RankFourTensor.DoubleDot (RankFourTensor.SetFromEandNu 1 nu)
        (setupFrame (triaxialPoint nu mode) zeroBanks).Strain)) := by
  refine axisSpectral_isSpectralProjection _ (fun i j hij => ?_)
  rw [SetFromEandNu_doubleDot, setupFrame_strain_triaxial]
  simp [RankTwoTensor.SetToIdentity, hij, Ne.symm hij]

theorem triaxial_mode_zero (nu : ℚ) :
    parseDecompositionMode (triaxialPoint nu 0).InputParams = 0 := by
  simp [parseDecompositionMode, triaxialPoint, truncToInt]

theorem triaxial_mode_one (nu : ℚ) :
    parseDecompositionMode (triaxialPoint nu 1).InputParams = 1 := by
  simp [parseDecompositionMode, triaxialPoint, truncToInt]

theorem setupFrame_strain_hydrostatic (mode : ℚ) :
    (setupFrame (hydrostaticPoint mode) zeroBanks).Strain
      = fun i j => if i = j then 1 / 100 else 0 := by
  funext i j
  simp only [setupFrame, hydrostaticPoint, RankTwoTensor.scale, RankTwoTensor.Transpose,
    Pi.add_apply, Function.update_same]
  fin_cases i <;> fin_cases j <;> simp [RankTwoTensor.SetFromGradU3]
  all_goals norm_num

theorem hydrostatic_strain_isSpectralProjection (mode : ℚ) :
    IsSpectralProjection (setupFrame (hydrostaticPoint mode) zeroBanks).Strain
      (axisSpectral (setupFrame (hydrostaticPoint mode) zeroBanks).Strain) := by
  refine axisSpectral_isSpectralProjection _ (fun i j hij => ?_)
  rw [setupFrame_strain_hydrostatic]
  simp [hij]

theorem hydrostatic_strain_eigval_pos (mode : ℚ) (a : Fin 3) :
    0 < (axisSpectral (setupFrame (hydrostaticPoint mode) zeroBanks).Strain).eigval a := by
  rw [setupFrame_strain_hydrostatic]
  simp [axisSpectral]

theorem hydrostatic_stress (mode : ℚ) :
    RankFourTensor.DoubleDot (RankFourTensor.SetFromEandNu 1 (-(1 / 5)))
        (setupFrame (hydrostaticPoint mode) zeroBanks).Strain
      = fun i j => if i = j then 1 / 140 else 0 := by
  funext i j
  rw [SetFromEandNu_doubleDot, setupFrame_strain_hydrostatic]
  by_cases hij : i = j
  · subst hij
    simp [RankTwoTensor.Trace, RankTwoTensor.SetToIdentity, Fin.sum_univ_three, lameLambda,
      lameMu]
    norm_num
  · simp [RankTwoTensor.SetToIdentity, hij, Ne.symm hij]

theorem hydrostatic_stress_isSpectralProjection (mode : ℚ) :
    IsSpectralProjection
      (RankFourTensor.DoubleDot (RankFourTensor.SetFromEandNu 1 (-(1 / 5)))
        (setupFrame (hydrostaticPoint mode) zeroBanks).Strain)
      (axisSpectral (RankFourTensor.DoubleDot (RankFourTensor.SetFromEandNu 1 (-(1 / 5)))
        (setupFrame (hydrostaticPoint mode) zeroBanks).Strain)) := by
  refine axisSpectral_isSpectralProjection _ (fun i j hij => ?_)
  rw [hydrostatic_stress]
  simp [hij]

theorem hydrostatic_stress_eigval_nonneg (mode : ℚ) (a : Fin 3) :
    0 ≤ (axisSpectral (RankFourTensor.DoubleDot (RankFourTensor.SetFromEandNu 1 (-(1 / 5)))
        (setupFrame (hydrostaticPoint mode) zeroBanks).Strain)).eigval a := by
  rw [hydrostatic_stress]
  simp [axisSpectral]

theorem hydrostatic_mode_zero :
    parseDecompositionMode (hydrostaticPoint 0).InputParams = 0 := by
  simp [parseDecompositionMode, hydrostaticPoint, truncToInt]

theorem hydrostatic_mode_one :
    parseDecompositionMode (hydrostaticPoint 1).InputParams = 1 := by
  simp [parseDecompositionMode, hydrostaticPoint, truncToInt]

/-- Witness for C7 (amended): `E = 1`, `nu = -1/5` (so `lambda = -5/28 < 0`), hydrostatic
tension `eps = diag(1/100, 1/100, 1/100)`, damage `1/2`, with the coordinate-axis spectral
decomposition: the elastic stress `diag(1/140, 1/140, 1/140)` has no negative eigenvalue, and
mode 0 and mode 1 store the same stress and compute the same `Psi`. -/
theorem modes_agree_in_tension_witness :
    lameLambda ((hydrostaticPoint 0).InputParams.getD 0 0)
        ((hydrostaticPoint 0).InputParams.getD 1 0) < 0
      ∧ (∀ a, 0 ≤ (axisSpectral
          (frameAfterDecomposition axisSpectral (hydrostaticPoint 1) zeroBanks).Stress).eigval a)
      ∧ (MieheLinearElasticMaterial axisSpectral Rat.sqrt (hydrostaticPoint 0) (fun _ => 0)
          zeroBanks).mate._Rank2Materials 1
        = (MieheLinearElasticMaterial axisSpectral Rat.sqrt (hydrostaticPoint 1) (fun _ => 0)
          zeroBanks).mate._Rank2Materials 1
      ∧ (frameAfterDecomposition axisSpectral (hydrostaticPoint 0) zeroBanks).Psi
        = (frameAfterDecomposition axisSpectral (hydrostaticPoint 1) zeroBanks).Psi := by
  have hspos : ∀ a, 0 ≤ (axisSpectral
      (frameAfterDecomposition axisSpectral (hydrostaticPoint 1) zeroBanks).Stress).eigval a := by
    rw [frameAfterDecomposition_of_stress_mode axisSpectral (hydrostaticPoint 1) zeroBanks
      hydrostatic_mode_one]
    exact hydrostatic_stress_eigval_nonneg 1
  have h := (modes_agree_in_tension axisSpectral Rat.sqrt (hydrostaticPoint 0)
    (hydrostaticPoint 1) (fun _ => 0) zeroBanks (by decide) (by decide)
    hydrostatic_mode_zero hydrostatic_mode_one rfl rfl rfl rfl rfl rfl
    (by
      rw [frameAfterDecomposition_of_strain_mode axisSpectral (hydrostaticPoint 0) zeroBanks
        hydrostatic_mode_zero]
      exact hydrostatic_strain_isSpectralProjection 0)
    (by
      rw [frameAfterDecomposition_of_strain_mode axisSpectral (hydrostaticPoint 0) zeroBanks
        hydrostatic_mode_zero]
      exact hydrostatic_strain_eigval_pos 0)
    (by
      rw [frameAfterDecomposition_of_stress_mode axisSpectral (hydrostaticPoint 1) zeroBanks
        hydrostatic_mode_one]
      exact hydrostatic_stress_isSpectralProjection 1)).1 hspos
  refine ⟨?_, hspos, h.1, h.2.1⟩
  norm_num [lameLambda, hydrostaticPoint]

/-- C7, counterexample: with the auxetic material `E = 1`, `nu = -9/10` (so `lambda < 0`)
the strain `diag(1, 1, 1/100)` has only positive eigenvalues and both projections meet the
spectral contract, yet mode 0 and mode 1 store different stresses: component `(3,3)` of
`_Rank2Materials[1]` is `251/1000 * (-1781/280)` in mode 0 and `-1781/280` in mode 1. -/
theorem modes_disagree_auxetic :
    parseDecompositionMode (triaxialPoint (-9 / 10) 0).InputParams = 0
      ∧ parseDecompositionMode (triaxialPoint (-9 / 10) 1).InputParams = 1
      ∧ IsSpectralProjection
          (frameAfterDecomposition axisSpectral (triaxialPoint (-9 / 10) 0) zeroBanks).Strain
          (axisSpectral
            (frameAfterDecomposition axisSpectral (triaxialPoint (-9 / 10) 0) zeroBanks).Strain)
      ∧ (∀ a, 0 < (axisSpectral (frameAfterDecomposition axisSpectral
            (triaxialPoint (-9 / 10) 0) zeroBanks).Strain).eigval a)
      ∧ IsSpectralProjection
          (frameAfterDecomposition axisSpectral (triaxialPoint (-9 / 10) 1) zeroBanks).Stress
          (axisSpectral
            (frameAfterDecomposition axisSpectral (triaxialPoint (-9 / 10) 1) zeroBanks).Stress)
      ∧ (MieheLinearElasticMaterial axisSpectral Rat.sqrt (triaxialPoint (-9 / 10) 0)
          (fun _ => 0) zeroBanks).mate._Rank2Materials 1 2 2 = 251 / 1000 * (-1781 / 280)
      ∧ (MieheLinearElasticMaterial axisSpectral Rat.sqrt (triaxialPoint (-9 / 10) 1)
          (fun _ => 0) zeroBanks).mate._Rank2Materials 1 2 2 = -1781 / 280
      ∧ (MieheLinearElasticMaterial axisSpectral Rat.sqrt (triaxialPoint (-9 / 10) 0)
          (fun _ => 0) zeroBanks).mate._Rank2Materials 1
        ≠ (MieheLinearElasticMaterial axisSpectral Rat.sqrt (triaxialPoint (-9 / 10) 1)
          (fun _ => 0) zeroBanks).mate._Rank2Materials 1 := by
  have hm0 := triaxial_mode_zero (-9 / 10)
  have hm1 := triaxial_mode_one (-9 / 10)
  have hc0 : IsSpectralProjection
      (frameAfterDecomposition axisSpectral (triaxialPoint (-9 / 10) 0) zeroBanks).Strain
      (axisSpectral
        (frameAfterDecomposition axisSpectral (triaxialPoint (-9 / 10) 0) zeroBanks).Strain) := by
    rw [frameAfterDecomposition_of_strain_mode _ _ _ hm0]
    exact triaxial_strain_isSpectralProjection _ _
  have hp0 : ∀ a, 0 < (axisSpectral (frameAfterDecomposition axisSpectral
      (triaxialPoint (-9 / 10) 0) zeroBanks).Strain).eigval a := by
    rw [frameAfterDecomposition_of_strain_mode _ _ _ hm0]
    exact triaxial_strain_eigval_pos _ _
  have hc1 : IsSpectralProjection
      (frameAfterDecomposition axisSpectral (triaxialPoint (-9 / 10) 1) zeroBanks).Stress
      (axisSpectral
        (frameAfterDecomposition axisSpectral (triaxialPoint (-9 / 10) 1) zeroBanks).Stress) := by
    rw [frameAfterDecomposition_of_stress_mode _ _ _ hm1]
    exact triaxial_stress_isSpectralProjection _ _
  have f20 : (2 : Fin 3) ≠ 0 := by decide
  have f21 : (2 : Fin 3) ≠ 1 := by decide
  have v0 : (MieheLinearElasticMaterial axisSpectral Rat.sqrt (triaxialPoint (-9 / 10) 0)
      (fun _ => 0) zeroBanks).mate._Rank2Materials 1 2 2 = 251 / 1000 * (-1781 / 280) := by
    rw [Miehe_stored_stress _ _ _ _ _ (by decide),
      frameAfterDecomposition_of_strain_mode _ _ _ hm0]
    rw [(strainDecomposition_of_nonneg axisSpectral _ _ _ _
      (triaxial_strain_isSpectralProjection _ _)
      (fun a => (triaxial_strain_eigval_pos _ _ a).le)).2.2.2.2 2 2]
    rw [setupFrame_strain_triaxial]
    norm_num [RankTwoTensor.Trace, RankTwoTensor.SetToIdentity, Fin.sum_univ_three, lameLambda,
      lameMu, triaxialPoint, degradation, clampDamage, kResidual, f20, f21, f20.symm, f21.symm]
  have v1 : (MieheLinearElasticMaterial axisSpectral Rat.sqrt (triaxialPoint (-9 / 10) 1)
      (fun _ => 0) zeroBanks).mate._Rank2Materials 1 2 2 = -1781 / 280 := by
    rw [Miehe_stored_stress _ _ _ _ _ (by decide),
      frameAfterDecomposition_of_stress_mode _ _ _ hm1]
    simp only [stressDecomposition, Function.update_same, Function.update_noteq, ne_eq,
      OfNat.ofNat_ne_one, not_false_eq_true, Pi.add_apply, Pi.sub_apply, RankTwoTensor.scale,
      axisSpectral_doubleDot_apply, SetFromEandNu_doubleDot, setupFrame_strain_triaxial]
    norm_num [RankTwoTensor.Trace, RankTwoTensor.SetToIdentity, Fin.sum_univ_three, lameLambda,
      lameMu, triaxialPoint, f20, f21, f20.symm, f21.symm, RankTwoTensor.scale,
      axisSpectral_doubleDot_apply, SetFromEandNu_doubleDot, clampDamage, kResidual]
  refine ⟨hm0, hm1, hc0, hp0, hc1, v0, v1, ?_⟩
  intro h
  have h22 := congrFun (congrFun h 2) 2
  rw [v0, v1] at h22
  norm_num at h22

/-! ### The degradation factor -/

theorem frame_d_eq_clampDamage [FloorRing K] (spectral : RankTwoTensor K → SpectralResult K) (p : GaussPoint K)
    (self : MateSystem K) :
    (frameAfterDecomposition spectral p self).d = clampDamage (p.gpU p.nDim) := by
  rcases parseDecompositionMode_cases p.InputParams with hm | hm
  · rw [frameAfterDecomposition_of_strain_mode spectral p self hm]; rfl
  · rw [frameAfterDecomposition_of_stress_mode spectral p self hm]; rfl

theorem frame_stored_stress [FloorRing K] (spectral : RankTwoTensor K → SpectralResult K) (p : GaussPoint K)
    (self : MateSystem K) (i j : Fin 3) :
    (frameAfterDecomposition spectral p self).mate._Rank2Materials 1 i j
      = degradation (frameAfterDecomposition spectral p self).d
          * (frameAfterDecomposition spectral p self).StressPos i j
        + (frameAfterDecomposition spectral p self).StressNeg i j := by
  rcases parseDecompositionMode_cases p.InputParams with hm | hm
  · rw [frameAfterDecomposition_of_strain_mode spectral p self hm]
    simp [strainDecomposition, degradation]
    ring
  · rw [frameAfterDecomposition_of_stress_mode spectral p self hm]
    simp [stressDecomposition, degradation, RankTwoTensor.scale]
    ring

/-- C5: the damage value `d` used by the evaluator is the clamped solution entry, the stored
stress is `((1-d)^2 + k) * StressPos + StressNeg` with `k = 1e-3`, and for every `d` with
`0.01 ≤ d ≤ 0.99` (in particular for the evaluator's `d`) the degradation factor
`(1-d)^2 + k` is strictly positive and at most `1`. -/
theorem degradation_bounds [FloorRing K] :
    (∀ (spectral : RankTwoTensor K → SpectralResult K) (p : GaussPoint K) (self : MateSystem K),
        (frameAfterDecomposition spectral p self).d = clampDamage (p.gpU p.nDim)
        ∧ (∀ i j, (frameAfterDecomposition spectral p self).mate._Rank2Materials 1 i j
            = degradation (frameAfterDecomposition spectral p self).d
                * (frameAfterDecomposition spectral p self).StressPos i j
              + (frameAfterDecomposition spectral p self).StressNeg i j)
        ∧ 0 < degradation (frameAfterDecomposition spectral p self).d
        ∧ degradation (frameAfterDecomposition spectral p self).d ≤ 1)
      ∧ (∀ d : K, 1 / 100 ≤ d → d ≤ 99 / 100 →
          clampDamage d = d ∧ 0 < degradation d ∧ degradation d ≤ 1) := by
  have key : ∀ d : K, 1 / 100 ≤ d → d ≤ 99 / 100 → 0 < degradation d ∧ degradation d ≤ 1 := by
    intro d h1 h2
    constructor
    · unfold degradation kResidual
      nlinarith [mul_self_nonneg (1 - d)]
    · unfold degradation kResidual
      nlinarith
  refine ⟨?_, ?_⟩
  · intro spectral p self
    have hd := frame_d_eq_clampDamage spectral p self
    have hb := clampDamage_bounds (p.gpU p.nDim)
    refine ⟨hd, frame_stored_stress spectral p self, ?_, ?_⟩
    · rw [hd]; exact (key _ hb.1 hb.2).1
    · rw [hd]; exact (key _ hb.1 hb.2).2
  · intro d h1 h2
    refine ⟨?_, key d h1 h2⟩
    unfold clampDamage
    have a1 : ¬ d < 1 / 100 := not_lt.mpr h1
    have a2 : ¬ d > 1 - 1 / 100 := by
      intro h; linarith
    simp only [a1, a2, if_false]

/-- Witness for C5: the two ends of the clamp interval, `d = 0.01` and `d = 0.99`. -/
theorem degradation_bounds_witness :
    (clampDamage (1 / 100 : ℚ) = 1 / 100 ∧ 0 < degradation (1 / 100 : ℚ)
        ∧ degradation (1 / 100 : ℚ) ≤ 1)
      ∧ (clampDamage (99 / 100 : ℚ) = 99 / 100 ∧ 0 < degradation (99 / 100 : ℚ)
          ∧ degradation (99 / 100 : ℚ) ≤ 1) :=
  ⟨(@degradation_bounds ℚ _ _).2 (1 / 100) (by norm_num) (by norm_num),
   (@degradation_bounds ℚ _ _).2 (99 / 100) (by norm_num) (by norm_num)⟩

/-! ### The damage clamp -/

theorem clampDamage_of_lt (u : K) (h : u < 1 / 100) : clampDamage u = 1 / 100 := by
  unfold clampDamage
  simp only [h, if_true]
  norm_num

theorem clampDamage_of_gt (u : K) (h : u > 99 / 100) : clampDamage u = 99 / 100 := by
  unfold clampDamage
  have h1 : ¬ u < 1 / 100 := by
    intro h'; linarith
  have h2 : u > 1 - 1 / 100 := by linarith
  simp only [h1, h2, if_true, if_false]
  norm_num

theorem clampDamage_of_mem (u : K) (h1 : 1 / 100 ≤ u) (h2 : u ≤ 99 / 100) :
    clampDamage u = u := by
  unfold clampDamage
  have a1 : ¬ u < 1 / 100 := not_lt.mpr h1
  have a2 : ¬ u > 1 - 1 / 100 := by
    intro h; linarith
  simp only [a1, a2, if_false]

/-- C11: in both modes the damage value `d` of the evaluator is `gpU[nDim]` clamped to
`[0.01, 0.99]`: the clamp gives `0.01` below `0.01`, `0.99` above `0.99` and the value itself
in between; it is idempotent and monotone. -/
theorem damage_is_clamped [FloorRing K] :
    (∀ (spectral : RankTwoTensor K → SpectralResult K) (p : GaussPoint K) (self : MateSystem K),
        (frameAfterDecomposition spectral p self).d = clampDamage (p.gpU p.nDim))
      ∧ (∀ u : K, u < 1 / 100 → clampDamage u = 1 / 100)
      ∧ (∀ u : K, u > 99 / 100 → clampDamage u = 99 / 100)
      ∧ (∀ u : K, 1 / 100 ≤ u → u ≤ 99 / 100 → clampDamage u = u)
      ∧ (∀ u : K, clampDamage (clampDamage u) = clampDamage u)
      ∧ (∀ u v : K, u ≤ v → clampDamage u ≤ clampDamage v) := by
  refine ⟨frame_d_eq_clampDamage, clampDamage_of_lt, clampDamage_of_gt, clampDamage_of_mem,
    ?_, ?_⟩
  · intro u
    have hb := clampDamage_bounds u
    exact clampDamage_of_mem _ hb.1 hb.2
  · intro u v huv
    rcases lt_or_le u (1 / 100) with hu | hu
    · rw [clampDamage_of_lt u hu]
      exact (clampDamage_bounds v).1
    · rcases lt_or_le (99 / 100) v with hv | hv
      · rw [clampDamage_of_gt v hv]
        exact (clampDamage_bounds u).2
      · rw [clampDamage_of_mem u hu (le_trans huv hv), clampDamage_of_mem v (le_trans hu huv) hv]
        exact huv

/-- Witness for C11: the solution entries `0`, `1/2` and `1`. -/
theorem damage_is_clamped_witness :
    clampDamage (0 : ℚ) = 1 / 100 ∧ clampDamage (1 / 2 : ℚ) = 1 / 2
      ∧ clampDamage (1 : ℚ) = 99 / 100 ∧ clampDamage (0 : ℚ) ≤ clampDamage (1 : ℚ) :=
  ⟨(@damage_is_clamped ℚ _ _).2.1 0 (by norm_num),
   (@damage_is_clamped ℚ _ _).2.2.2.1 (1 / 2) (by norm_num) (by norm_num),
   (@damage_is_clamped ℚ _ _).2.2.1 1 (by norm_num),
   (@damage_is_clamped ℚ _ _).2.2.2.2.2 0 1 (by norm_num)⟩

/-! ### The trace split and the sign indicators -/

theorem strainDecomposition_trace_locals (spectral : RankTwoTensor K → SpectralResult K)
    (lambda mu : K) (p : GaussPoint K) (f : Frame K) :
    (strainDecomposition spectral lambda mu p f).StrainTrace = RankTwoTensor.Trace f.Strain
      ∧ (strainDecomposition spectral lambda mu p f).TrPos
          = (|RankTwoTensor.Trace f.Strain| + RankTwoTensor.Trace f.Strain) * (1 / 2)
      ∧ (strainDecomposition spectral lambda mu p f).TrNeg
          = -(|RankTwoTensor.Trace f.Strain| - RankTwoTensor.Trace f.Strain) * (1 / 2)
      ∧ (strainDecomposition spectral lambda mu p f).SignPos
          = (if RankTwoTensor.Trace f.Strain ≥ 0 then 1 else 0)
      ∧ (strainDecomposition spectral lambda mu p f).SignNeg
          = (if RankTwoTensor.Trace f.Strain ≤ 0 then 1 else 0) :=
  ⟨rfl, rfl, rfl, rfl, rfl⟩

theorem macaulay_pos (t : K) : (|t| + t) * (1 / 2) = max t 0 := by
  rcases le_total 0 t with h | h
  · rw [abs_of_nonneg h, max_eq_left h]; ring
  · rw [abs_of_nonpos h, max_eq_right h]; ring

theorem macaulay_neg (t : K) : -(|t| - t) * (1 / 2) = min t 0 := by
  rcases le_total 0 t with h | h
  · rw [abs_of_nonneg h, min_eq_right h]; ring
  · rw [abs_of_nonpos h, min_eq_left h]; ring

/-- C12: in strain-based mode the values computed with the absolute-value formulas are
`TrPos = max(tr, 0)` and `TrNeg = min(tr, 0)` for the strain trace `tr`, hence
`TrPos + TrNeg = tr`, `TrPos * TrNeg = 0`, `TrPos ≥ 0` and `TrNeg ≤ 0`. -/
theorem trace_split [FloorRing K] (spectral : RankTwoTensor K → SpectralResult K) (p : GaussPoint K)
    (self : MateSystem K) (hmode : parseDecompositionMode p.InputParams = 0) :
    (frameAfterDecomposition spectral p self).StrainTrace
        = RankTwoTensor.Trace (frameAfterDecomposition spectral p self).Strain
      ∧ (frameAfterDecomposition spectral p self).TrPos
        = max (frameAfterDecomposition spectral p self).StrainTrace 0
      ∧ (frameAfterDecomposition spectral p self).TrNeg
        = min (frameAfterDecomposition spectral p self).StrainTrace 0
      ∧ (frameAfterDecomposition spectral p self).TrPos
          + (frameAfterDecomposition spectral p self).TrNeg
        = (frameAfterDecomposition spectral p self).StrainTrace
      ∧ (frameAfterDecomposition spectral p self).TrPos
          * (frameAfterDecomposition spectral p self).TrNeg = 0
      ∧ 0 ≤ (frameAfterDecomposition spectral p self).TrPos
      ∧ (frameAfterDecomposition spectral p self).TrNeg ≤ 0 := by
  rw [frameAfterDecomposition_of_strain_mode spectral p self hmode]
  obtain ⟨h1, h2, h3, -, -⟩ := strainDecomposition_trace_locals spectral
    (lameLambda (p.InputParams.getD 0 0) (p.InputParams.getD 1 0))
    (lameMu (p.InputParams.getD 0 0) (p.InputParams.getD 1 0)) p (setupFrame p self)
  rw [h2, h3, h1, macaulay_pos, macaulay_neg]
  refine ⟨rfl, rfl, rfl, ?_, ?_, le_max_right _ _, min_le_right _ _⟩
  · rcases le_total 0 (RankTwoTensor.Trace (setupFrame p self).Strain) with h | h
    · rw [max_eq_left h, min_eq_right h]; ring
    · rw [max_eq_right h, min_eq_left h]; ring
  · rcases le_total 0 (RankTwoTensor.Trace (setupFrame p self).Strain) with h | h
    · rw [max_eq_left h, min_eq_right h]; ring
    · rw [max_eq_right h, min_eq_left h]; ring

theorem setupFrame_strain_compressed :
    (setupFrame compressedPoint zeroBanks).Strain
      = fun i j => if i = 0 ∧ j = 0 then -(1 / 1000) else 0 := by
  funext i j
  simp only [setupFrame, compressedPoint, RankTwoTensor.scale, RankTwoTensor.Transpose,
    Pi.add_apply, Function.update_same, if_true]
  fin_cases i <;> fin_cases j <;> simp [RankTwoTensor.SetFromGradU2]
  norm_num

theorem uniaxial_trace :
    RankTwoTensor.Trace (setupFrame uniaxialPoint zeroBanks).Strain = 1 / 1000 := by
  rw [setupFrame_strain_uniaxial]
  simp [RankTwoTensor.Trace, Fin.sum_univ_three]

theorem compressed_trace :
    RankTwoTensor.Trace (setupFrame compressedPoint zeroBanks).Strain = -(1 / 1000) := by
  rw [setupFrame_strain_compressed]
  simp [RankTwoTensor.Trace, Fin.sum_univ_three]

/-- Witness for C12: the uniaxial point, whose trace is `1/1000`. -/
theorem trace_split_witness :
    (frameAfterDecomposition axisSpectral uniaxialPoint zeroBanks).TrPos
        = max (frameAfterDecomposition axisSpectral uniaxialPoint zeroBanks).StrainTrace 0
      ∧ (frameAfterDecomposition axisSpectral uniaxialPoint zeroBanks).TrNeg
        = min (frameAfterDecomposition axisSpectral uniaxialPoint zeroBanks).StrainTrace 0
      ∧ (frameAfterDecomposition axisSpectral uniaxialPoint zeroBanks).StrainTrace = 1 / 1000 := by
  have h := trace_split axisSpectral uniaxialPoint zeroBanks (by decide)
  refine ⟨h.2.1, h.2.2.1, ?_⟩
  rw [h.1, frameAfterDecomposition_of_strain_mode axisSpectral uniaxialPoint zeroBanks
    (by decide)]
  exact uniaxial_trace

/-- C14 (amended): in strain-based mode the sign indicators follow the strain trace itself:
`SignPos` is `1` when `tr ≥ 0` and `0` otherwise, `SignNeg` is `1` when `tr ≤ 0` and `0`
otherwise; they select the split traces, `SignPos * tr = TrPos` and `SignNeg * tr = TrNeg`. -/
theorem sign_indicators [FloorRing K] (spectral : RankTwoTensor K → SpectralResult K) (p : GaussPoint K)
    (self : MateSystem K) (hmode : parseDecompositionMode p.InputParams = 0) :
    (frameAfterDecomposition spectral p self).SignPos
        = (if (frameAfterDecomposition spectral p self).StrainTrace ≥ 0 then 1 else 0)
      ∧ (frameAfterDecomposition spectral p self).SignNeg
        = (if (frameAfterDecomposition spectral p self).StrainTrace ≤ 0 then 1 else 0)
      ∧ (frameAfterDecomposition spectral p self).SignPos
          * (frameAfterDecomposition spectral p self).StrainTrace
        = (frameAfterDecomposition spectral p self).TrPos
      ∧ (frameAfterDecomposition spectral p self).SignNeg
          * (frameAfterDecomposition spectral p self).StrainTrace
        = (frameAfterDecomposition spectral p self).TrNeg := by
  rw [frameAfterDecomposition_of_strain_mode spectral p self hmode]
  obtain ⟨h1, h2, h3, h4, h5⟩ := strainDecomposition_trace_locals spectral
    (lameLambda (p.InputParams.getD 0 0) (p.InputParams.getD 1 0))
    (lameMu (p.InputParams.getD 0 0) (p.InputParams.getD 1 0)) p (setupFrame p self)
  rw [h1, h2, h3, h4, h5]
  refine ⟨rfl, rfl, ?_, ?_⟩
  · rcases le_or_lt 0 (RankTwoTensor.Trace (setupFrame p self).Strain) with h | h
    · rw [if_pos (ge_iff_le.mpr h), abs_of_nonneg h]; ring
    · rw [if_neg (by intro h'; exact absurd h (not_lt.mpr (ge_iff_le.mp h'))), abs_of_neg h]
      ring
  · rcases le_or_lt (RankTwoTensor.Trace (setupFrame p self).Strain) 0 with h | h
    · rw [if_pos h, abs_of_nonpos h]; ring
    · rw [if_neg (not_le.mpr h), abs_of_pos h]; ring

/-- Witness for C14 (amended): the uniaxial point under tension. -/
theorem sign_indicators_witness :
    (frameAfterDecomposition axisSpectral uniaxialPoint zeroBanks).SignPos
        = (if (frameAfterDecomposition axisSpectral uniaxialPoint zeroBanks).StrainTrace ≥ 0
            then 1 else 0)
      ∧ (frameAfterDecomposition axisSpectral uniaxialPoint zeroBanks).SignNeg
        = (if (frameAfterDecomposition axisSpectral uniaxialPoint zeroBanks).StrainTrace ≤ 0
            then 1 else 0) := by
  have h := sign_indicators axisSpectral uniaxialPoint zeroBanks (by decide)
  exact ⟨h.1, h.2.1⟩

/-- C14, counterexample: under uniaxial compression (`tr = -1/1000`) `TrPos = 0 ≥ 0` but
`SignPos = 0`, and under uniaxial tension (`tr = 1/1000`) `TrNeg = 0 ≤ 0` but `SignNeg = 0`. -/
theorem sign_not_from_split_traces :
    parseDecompositionMode compressedPoint.InputParams = 0
      ∧ (frameAfterDecomposition axisSpectral compressedPoint zeroBanks).TrPos ≥ 0
      ∧ (frameAfterDecomposition axisSpectral compressedPoint zeroBanks).SignPos = 0
      ∧ parseDecompositionMode uniaxialPoint.InputParams = 0
      ∧ (frameAfterDecomposition axisSpectral uniaxialPoint zeroBanks).TrNeg ≤ 0
      ∧ (frameAfterDecomposition axisSpectral uniaxialPoint zeroBanks).SignNeg = 0 := by
  have hc : parseDecompositionMode compressedPoint.InputParams = 0 := by decide
  have hu : parseDecompositionMode uniaxialPoint.InputParams = 0 := by decide
  have habs : |(1 / 1000 : ℚ)| = 1 / 1000 := abs_of_pos (by norm_num)
  refine ⟨hc, ?_, ?_, hu, ?_, ?_⟩
  · rw [frameAfterDecomposition_of_strain_mode _ _ _ hc,
      (strainDecomposition_trace_locals _ _ _ _ _).2.1, compressed_trace, abs_neg, habs]
    norm_num
  · rw [frameAfterDecomposition_of_strain_mode _ _ _ hc,
      (strainDecomposition_trace_locals _ _ _ _ _).2.2.2.1, compressed_trace]
    norm_num
  · rw [frameAfterDecomposition_of_strain_mode _ _ _ hu,
      (strainDecomposition_trace_locals _ _ _ _ _).2.2.1, uniaxial_trace, habs]
    norm_num
  · rw [frameAfterDecomposition_of_strain_mode _ _ _ hu,
      (strainDecomposition_trace_locals _ _ _ _ _).2.2.2.2, uniaxial_trace]
    norm_num

/-! ### The history update -/

/-- C13: after every completed call `gpHist[0] = max(PsiPos, gpHistOld[0])`; the history
derivative `_Rank2Materials[3]` is `StressPos` when `PsiPos ≥ gpHistOld[0]` (ties included)
and the zero tensor otherwise, so it equals `StressPos` exactly when `PsiPos ≥ gpHistOld[0]`
or `StressPos` is itself zero; the other entries of `gpHist` keep their values (`gpHistOld`
is a read-only argument). -/
theorem history_update_rule [FloorRing K] (spectral : RankTwoTensor K → SpectralResult K) (sqrt : K → K)
    (p : GaussPoint K) (gpHist : ℕ → K) (self : MateSystem K) (h5 : 5 ≤ p.InputParams.length) :
    (MieheLinearElasticMaterial spectral sqrt p gpHist self).gpHist 0
        = max (frameAfterDecomposition spectral p self).PsiPos (p.gpHistOld 0)
      ∧ ((frameAfterDecomposition spectral p self).PsiPos ≥ p.gpHistOld 0 →
          (MieheLinearElasticMaterial spectral sqrt p gpHist self).gpHist 0
              = (frameAfterDecomposition spectral p self).PsiPos
          ∧ (MieheLinearElasticMaterial spectral sqrt p gpHist self).mate._Rank2Materials 3
              = (frameAfterDecomposition spectral p self).StressPos)
      ∧ ((frameAfterDecomposition spectral p self).PsiPos < p.gpHistOld 0 →
          (MieheLinearElasticMaterial spectral sqrt p gpHist self).gpHist 0 = p.gpHistOld 0
          ∧ (MieheLinearElasticMaterial spectral sqrt p gpHist self).mate._Rank2Materials 3
              = RankTwoTensor.SetToZeros)
      ∧ ((MieheLinearElasticMaterial spectral sqrt p gpHist self).mate._Rank2Materials 3
            = (frameAfterDecomposition spectral p self).StressPos
          ↔ ((frameAfterDecomposition spectral p self).PsiPos ≥ p.gpHistOld 0
              ∨ (frameAfterDecomposition spectral p self).StressPos
                  = RankTwoTensor.SetToZeros))
      ∧ (∀ i, i ≠ 0 →
          (MieheLinearElasticMaterial spectral sqrt p gpHist self).gpHist i = gpHist i) := by
  have hg := Miehe_gpHist_of_long spectral sqrt p gpHist self h5
  have h3 := (Miehe_exposed_history spectral sqrt p gpHist self h5).2.2
  have hge : (frameAfterDecomposition spectral p self).PsiPos ≥ p.gpHistOld 0 →
      (historyUpdate (frameAfterDecomposition spectral p self) p.gpHistOld gpHist).1 3
        = (frameAfterDecomposition spectral p self).StressPos := by
    intro h
    unfold historyUpdate
    rw [if_pos h]
    simp
  have hlt : (frameAfterDecomposition spectral p self).PsiPos < p.gpHistOld 0 →
      (historyUpdate (frameAfterDecomposition spectral p self) p.gpHistOld gpHist).1 3
        = RankTwoTensor.SetToZeros := by
    intro h
    unfold historyUpdate
    rw [if_neg (not_le.mpr h)]
    simp
  refine ⟨?_, ?_, ?_, ?_, ?_⟩
  · rw [hg, historyUpdate_hist_zero]
  · intro h
    refine ⟨?_, ?_⟩
    · rw [hg, historyUpdate_hist_zero, max_eq_left (ge_iff_le.mp h)]
    · rw [h3, hge h]
  · intro h
    refine ⟨?_, ?_⟩
    · rw [hg, historyUpdate_hist_zero, max_eq_right h.le]
    · rw [h3, hlt h]
  · rw [h3]
    constructor
    · intro heq
      rcases le_or_lt (p.gpHistOld 0) (frameAfterDecomposition spectral p self).PsiPos
        with h | h
      · exact Or.inl h
      · right
        rw [← heq, hlt h]
    · rintro (h | h)
      · exact hge h
      · rcases le_or_lt (p.gpHistOld 0) (frameAfterDecomposition spectral p self).PsiPos
          with h' | h'
        · exact hge h'
        · rw [hlt h', h]
  · intro i hi
    rw [hg]
    unfold historyUpdate
    split_ifs <;> simp [Function.update_noteq hi]

/-- Witness for C13: the uniaxial point on a fresh history. -/
theorem history_update_rule_witness :
    (MieheLinearElasticMaterial axisSpectral Rat.sqrt uniaxialPoint (fun _ => 0)
        zeroBanks).gpHist 0
      = max (frameAfterDecomposition axisSpectral uniaxialPoint zeroBanks).PsiPos
          (uniaxialPoint.gpHistOld 0) :=
  (history_update_rule axisSpectral Rat.sqrt uniaxialPoint (fun _ => 0) zeroBanks
    (by decide)).1

/-! ### The decomposition mode -/

/-- C17: the mode is `0` with fewer than 7 parameters or when the seventh parameter is `0`
(truncates to `0`), and `1` when the seventh parameter is `1` (truncates to anything but
`0`); it is always `0` or `1`, so the frame at line 188 is the result of exactly one of the
two branches, which assign `Stress`, `PsiPos`, `PsiNeg`, `Psi` and `d`. -/
theorem decomposition_mode_selection [FloorRing K] (spectral : RankTwoTensor K → SpectralResult K)
    (p : GaussPoint K) (self : MateSystem K) :
    (p.InputParams.length < 7 → parseDecompositionMode p.InputParams = 0)
      ∧ (7 ≤ p.InputParams.length → p.InputParams.getD (7 - 1) 0 = 0 →
          parseDecompositionMode p.InputParams = 0)
      ∧ (7 ≤ p.InputParams.length → p.InputParams.getD (7 - 1) 0 = 1 →
          parseDecompositionMode p.InputParams = 1)
      ∧ (7 ≤ p.InputParams.length → truncToInt (p.InputParams.getD (7 - 1) 0) = 0 →
          parseDecompositionMode p.InputParams = 0)
      ∧ (7 ≤ p.InputParams.length → truncToInt (p.InputParams.getD (7 - 1) 0) ≠ 0 →
          parseDecompositionMode p.InputParams = 1)
      ∧ ((parseDecompositionMode p.InputParams = 0
            ∧ frameAfterDecomposition spectral p self
              = strainDecomposition spectral
                  (lameLambda (p.InputParams.getD 0 0) (p.InputParams.getD 1 0))
                  (lameMu (p.InputParams.getD 0 0) (p.InputParams.getD 1 0)) p
                  (setupFrame p self))
          ∨ (parseDecompositionMode p.InputParams = 1
            ∧ frameAfterDecomposition spectral p self
              = stressDecomposition spectral (p.InputParams.getD 0 0) (p.InputParams.getD 1 0)
                  p (setupFrame p self))) := by
  have ht0 : truncToInt (0 : K) = 0 := by simp [truncToInt]
  have ht1 : truncToInt (1 : K) = 1 := by simp [truncToInt]
  refine ⟨?_, ?_, ?_, ?_, ?_, ?_⟩
  · intro h
    unfold parseDecompositionMode
    rw [if_neg (by omega)]
  · intro h h0
    unfold parseDecompositionMode
    rw [if_pos h, h0, if_pos ht0]
  · intro h h1
    unfold parseDecompositionMode
    rw [if_pos h, h1, ht1, if_neg (by decide)]
  · intro h h0
    unfold parseDecompositionMode
    rw [if_pos h, if_pos h0]
  · intro h h0
    unfold parseDecompositionMode
    rw [if_pos h, if_neg h0]
  · rcases parseDecompositionMode_cases p.InputParams with hm | hm
    · exact Or.inl ⟨hm, frameAfterDecomposition_of_strain_mode spectral p self hm⟩
    · exact Or.inr ⟨hm, frameAfterDecomposition_of_stress_mode spectral p self hm⟩

/-- Witness for C17: five parameters, and seven parameters with the seventh `0` and `1`. -/
theorem decomposition_mode_selection_witness :
    parseDecompositionMode uniaxialPoint.InputParams = 0
      ∧ parseDecompositionMode (triaxialPoint (3 / 10) 0).InputParams = 0
      ∧ parseDecompositionMode (triaxialPoint (3 / 10) 1).InputParams = 1 :=
  ⟨(decomposition_mode_selection axisSpectral uniaxialPoint zeroBanks).1 (by decide),
   (decomposition_mode_selection axisSpectral (triaxialPoint (3 / 10) 0) zeroBanks).2.1
     (by decide) rfl,
   (decomposition_mode_selection axisSpectral (triaxialPoint (3 / 10) 1) zeroBanks).2.2.1
     (by decide) rfl⟩

/-! ### The reported iteration count -/

theorem Monitor_iters (solutionNorm : K) (iters : ℤ) (rnorm : K) (user : MonitorCtx K) :
    (Monitor solutionNorm iters rnorm user).iters = iters := by
  unfold Monitor
  by_cases h : iters = 0
  · simp [h]
  · simp [h]

theorem monitor_fold_iters (calls : List (MonitorCall K)) (ctx : MonitorCtx K) :
    (calls.foldl (fun ctx c => Monitor c.solutionNorm c.iters c.rnorm ctx) ctx).iters
      = (match calls.getLast? with
          | some c => c.iters
          | none => ctx.iters) := by
  induction calls using List.reverseRecOn with
  | nil => rfl
  | append_singleton init c _ =>
    rw [List.foldl_append, List.getLast?_concat]
    simp only [List.foldl_cons, List.foldl_nil]
    exact (Monitor_iters _ _ _ _)

theorem SSolve_state (IsDepDebug : Bool) (run : EngineRun K) (self : NonlinearSolver K) :
    (SSolve IsDepDebug run self).2
      = { self with
          _monctx := run.monitorCalls.foldl
            (fun ctx c => Monitor c.solutionNorm c.iters c.rnorm ctx)
            { rnorm0 := 0, rnorm := 1, dunorm0 := 0, dunorm := 1, enorm0 := 0, enorm := 1,
              iters := 0, IsDepDebug := IsDepDebug }
          _Iters := (run.monitorCalls.foldl
            (fun ctx c => Monitor c.solutionNorm c.iters c.rnorm ctx)
            (⟨0, 1, 0, 1, 0, 1, 0, IsDepDebug⟩ : MonitorCtx K)).iters
          _snesreason := run.reason } := by
  unfold SSolve
  simp only []
  split_ifs <;> rfl

/-- C18: after `SSolve`, `_Iters` equals `_monctx.iters`, which is the iteration index of the
last monitor callback of the run, or the initial `0` when the monitor was never invoked,
whatever the reported reason and the value returned. -/
theorem reported_iterations (IsDepDebug : Bool) (run : EngineRun K) (self : NonlinearSolver K) :
    (SSolve IsDepDebug run self).2._Iters = (SSolve IsDepDebug run self).2._monctx.iters
      ∧ (SSolve IsDepDebug run self).2._Iters
        = (match run.monitorCalls.getLast? with
            | some c => c.iters
            | none => 0)
      ∧ (run.monitorCalls = [] → (SSolve IsDepDebug run self).2._Iters = 0) := by
  rw [SSolve_state]
  refine ⟨rfl, ?_, ?_⟩
  · exact monitor_fold_iters run.monitorCalls _
  · intro h
    simp [h]

/-- Witness for C18: a converged run of three iterations, a diverged run of three iterations
and a run without any monitor callback, on a driver that holds stale values. -/
theorem reported_iterations_witness :
    (SSolve true (threeIterationRun SNES_CONVERGED_FNORM_RELATIVE) usedSolver).2._Iters = 2
      ∧ (SSolve true (threeIterationRun (-6)) usedSolver).2._Iters = 2
      ∧ (SSolve true (silentRun (-6)) usedSolver).2._Iters = 0 :=
  ⟨(reported_iterations true (threeIterationRun SNES_CONVERGED_FNORM_RELATIVE) usedSolver).2.1,
   (reported_iterations true (threeIterationRun (-6)) usedSolver).2.1,
   (reported_iterations true (silentRun (-6)) usedSolver).2.2 rfl⟩

/-! ### The sixth parameter -/

theorem Miehe_congr_params [FloorRing K] (spectral : RankTwoTensor K → SpectralResult K) (sqrt : K → K)
    (p : GaussPoint K) (params0 params1 : List K) (gpHist : ℕ → K) (self : MateSystem K)
    (hlen : params0.length < 5 ↔ params1.length < 5)
    (hmode : parseDecompositionMode params0 = parseDecompositionMode params1)
    (h0 : params0.getD 0 0 = params1.getD 0 0) (h1 : params0.getD 1 0 = params1.getD 1 0)
    (h2 : params0.getD 2 0 = params1.getD 2 0) (h3 : params0.getD 3 0 = params1.getD 3 0)
    (h4 : params0.getD 4 0 = params1.getD 4 0) :
    MieheLinearElasticMaterial spectral sqrt { p with InputParams := params0 } gpHist self
      = MieheLinearElasticMaterial spectral sqrt { p with InputParams := params1 } gpHist
          self := by
  have hsetup : setupFrame { p with InputParams := params0 } self
      = setupFrame { p with InputParams := params1 } self := by
    simp only [setupFrame, h2, h3, h4]
  have hframe : frameAfterDecomposition spectral { p with InputParams := params0 } self
      = frameAfterDecomposition spectral { p with InputParams := params1 } self := by
    simp only [frameAfterDecomposition, decompose, hsetup, hmode, h0, h1, strainDecomposition,
      stressDecomposition]
  unfold MieheLinearElasticMaterial
  by_cases h : params0.length < 5
  · rw [if_pos h, if_pos (hlen.mp h)]
  · rw [if_neg h, if_neg (fun h' => h (hlen.mpr h'))]
    simp only [parseUseHist_eq_zero, hframe, h1]

/-- C16: line 42 zeroes the parsed flag for every parameter list, so every completed call
exposes `_ScalarMaterials[20] = gpHist[0]` and `_Rank2Materials[5] = _Rank2Materials[3]`, and
two calls that differ only in the sixth parameter (its value, or its presence at the end of
the list) give identical results. -/
theorem staggered_flag_has_no_effect [FloorRing K] (spectral : RankTwoTensor K → SpectralResult K)
    (sqrt : K → K) (p : GaussPoint K) (gpHist : ℕ → K) (self : MateSystem K) :
    (∀ params : List K, parseUseHist params = 0)
      ∧ (5 ≤ p.InputParams.length →
          (MieheLinearElasticMaterial spectral sqrt p gpHist self).mate._ScalarMaterials 20
              = (MieheLinearElasticMaterial spectral sqrt p gpHist self).gpHist 0
          ∧ (MieheLinearElasticMaterial spectral sqrt p gpHist self).mate._Rank2Materials 5
              = (MieheLinearElasticMaterial spectral sqrt p gpHist self).mate._Rank2Materials 3)
      ∧ (∀ (EE nu Gc L viscosity x y : K) (rest : List K),
          MieheLinearElasticMaterial spectral sqrt
              { p with InputParams := EE :: nu :: Gc :: L :: viscosity :: x :: rest } gpHist self
            = MieheLinearElasticMaterial spectral sqrt
              { p with InputParams := EE :: nu :: Gc :: L :: viscosity :: y :: rest } gpHist
              self)
      ∧ (∀ (EE nu Gc L viscosity x : K),
          MieheLinearElasticMaterial spectral sqrt
              { p with InputParams := [EE, nu, Gc, L, viscosity, x] } gpHist self
            = MieheLinearElasticMaterial spectral sqrt
              { p with InputParams := [EE, nu, Gc, L, viscosity] } gpHist self) := by
  refine ⟨parseUseHist_eq_zero, ?_, ?_, ?_⟩
  · intro h5
    have h := Miehe_exposed_history spectral sqrt p gpHist self h5
    exact ⟨h.1, h.2.1⟩
  · intro EE nu Gc L viscosity x y rest
    refine Miehe_congr_params spectral sqrt p _ _ gpHist self ?_ ?_ rfl rfl rfl rfl rfl
    · simp
    · simp [parseDecompositionMode]
  · intro EE nu Gc L viscosity x
    refine Miehe_congr_params spectral sqrt p _ _ gpHist self ?_ ?_ rfl rfl rfl rfl rfl
    · simp
    · simp [parseDecompositionMode]

/-- Witness for C16: the uniaxial point with the sixth parameter `1` and without a sixth
parameter. -/
theorem staggered_flag_has_no_effect_witness :
    MieheLinearElasticMaterial axisSpectral Rat.sqrt
        { uniaxialPoint with InputParams := [210000, 3 / 10, 27 / 10, 1 / 50, 0, 1] }
        (fun _ => 0) zeroBanks
      = MieheLinearElasticMaterial axisSpectral Rat.sqrt
        { uniaxialPoint with InputParams := [210000, 3 / 10, 27 / 10, 1 / 50, 0] }
        (fun _ => 0) zeroBanks
      ∧ (MieheLinearElasticMaterial axisSpectral Rat.sqrt staggeredPoint (fun _ => 0)
          zeroBanks).mate._ScalarMaterials 20
        = (MieheLinearElasticMaterial axisSpectral Rat.sqrt staggeredPoint (fun _ => 0)
          zeroBanks).gpHist 0 :=
  ⟨(staggered_flag_has_no_effect axisSpectral Rat.sqrt uniaxialPoint (fun _ => 0)
      zeroBanks).2.2.2 210000 (3 / 10) (27 / 10) (1 / 50) 0 1,
   ((staggered_flag_has_no_effect axisSpectral Rat.sqrt staggeredPoint (fun _ => 0)
      zeroBanks).2.1 (by decide)).1⟩

/-! ### Contractions of fourth-order tensors -/

theorem RankFourTensor.DoubleDot_add (C D : RankFourTensor K) (A : RankTwoTensor K) :
    RankFourTensor.DoubleDot (C + D) A
      = RankFourTensor.DoubleDot C A + RankFourTensor.DoubleDot D A := by
  funext i j
  simp only [RankFourTensor.DoubleDot, Pi.add_apply, Fin.sum_univ_three]
  ring

theorem RankFourTensor.DoubleDot_sub (C D : RankFourTensor K) (A : RankTwoTensor K) :
    RankFourTensor.DoubleDot (C - D) A
      = RankFourTensor.DoubleDot C A - RankFourTensor.DoubleDot D A := by
  funext i j
  simp only [RankFourTensor.DoubleDot, Pi.sub_apply, Fin.sum_univ_three]
  ring

theorem RankFourTensor.DoubleDot_scale (C : RankFourTensor K) (c : K) (A : RankTwoTensor K) :
    RankFourTensor.DoubleDot (RankFourTensor.scale C c) A
      = RankTwoTensor.scale (RankFourTensor.DoubleDot C A) c := by
  funext i j
  simp only [RankFourTensor.DoubleDot, RankFourTensor.scale, RankTwoTensor.scale,
    Fin.sum_univ_three]
  ring

theorem RankFourTensor.DoubleDot_smul (c : K) (C : RankFourTensor K) (A : RankTwoTensor K) :
    RankFourTensor.DoubleDot (c • C) A = c • RankFourTensor.DoubleDot C A := by
  funext i j
  simp only [RankFourTensor.DoubleDot, Pi.smul_apply, smul_eq_mul, Fin.sum_univ_three]
  ring

theorem RankFourTensor.DoubleDot4_doubleDot (A B : RankFourTensor K) (E : RankTwoTensor K) :
    RankFourTensor.DoubleDot (RankFourTensor.DoubleDot4 A B) E
      = RankFourTensor.DoubleDot A (RankFourTensor.DoubleDot B E) := by
  funext i j
  simp only [RankFourTensor.DoubleDot, RankFourTensor.DoubleDot4, Fin.sum_univ_three]
  ring

theorem InitIdentitySymmetric4_doubleDot (A : RankTwoTensor K) (i j : Fin 3) :
    RankFourTensor.DoubleDot RankFourTensor.InitIdentitySymmetric4 A i j
      = (A i j + A j i) / 2 := by
  fin_cases i <;> fin_cases j <;>
    simp [RankFourTensor.DoubleDot, RankFourTensor.InitIdentitySymmetric4,
      Fin.sum_univ_three] <;>
    ring

theorem CrossDot_identity_doubleDot (A : RankTwoTensor K) (i j : Fin 3) :
    RankFourTensor.DoubleDot
        (RankTwoTensor.CrossDot RankTwoTensor.SetToIdentity RankTwoTensor.SetToIdentity) A i j
      = RankTwoTensor.Trace A * RankTwoTensor.SetToIdentity i j := by
  fin_cases i <;> fin_cases j <;>
    simp [RankFourTensor.DoubleDot, RankTwoTensor.CrossDot, RankTwoTensor.SetToIdentity,
      RankTwoTensor.Trace, Fin.sum_univ_three]

/-! ### The tangent contracted with the strain -/

/-- In the strain-based branch the stored tangent contracted with a symmetric strain is the
stored stress. -/
theorem strainDecomposition_tangent (spectral : RankTwoTensor K → SpectralResult K)
    (lambda mu : K) (p : GaussPoint K) (f : Frame K) (hsym : ∀ i j, f.Strain i j = f.Strain j i)
    (i j : Fin 3) :
    RankFourTensor.DoubleDot
        ((strainDecomposition spectral lambda mu p f).mate._Rank4Materials 0) f.Strain i j
      = (strainDecomposition spectral lambda mu p f).mate._Rank2Materials 1 i j := by
  have hI4 : RankFourTensor.DoubleDot RankFourTensor.InitIdentitySymmetric4 f.Strain i j
      = f.Strain i j := by
    rw [InitIdentitySymmetric4_doubleDot, ← hsym i j]; ring
  have hII := CrossDot_identity_doubleDot f.Strain i j
  simp only [strainDecomposition, Function.update_same,
    Function.update_noteq (show (1 : ℕ) ≠ 2 by decide), RankFourTensor.DoubleDot_add,
    RankFourTensor.DoubleDot_sub, RankFourTensor.DoubleDot_scale, RankTwoTensor.scale,
    Pi.add_apply, Pi.sub_apply, Pi.smul_apply, smul_eq_mul, hI4, hII]
  rcases lt_trichotomy (RankTwoTensor.Trace f.Strain) 0 with h | h | h
  · have h1 : ¬ RankTwoTensor.Trace f.Strain ≥ 0 := not_le.mpr h
    rw [if_neg h1, if_pos h.le, abs_of_neg h]
    ring
  · rw [h]
    simp
    ring
  · have h1 : ¬ RankTwoTensor.Trace f.Strain ≤ 0 := not_le.mpr h
    rw [if_pos h.le, if_neg h1, abs_of_pos h]
    ring

/-- In the stress-based branch the stored tangent contracted with the strain is the stored
stress plus `StressPos`: the tangent carries the whole `I4Sym` where the stress carries only
the negative projection. -/
theorem stressDecomposition_tangent (spectral : RankTwoTensor K → SpectralResult K)
    (EE nu : K) (p : GaussPoint K) (f : Frame K) (i j : Fin 3) :
    RankFourTensor.DoubleDot
        ((stressDecomposition spectral EE nu p f).mate._Rank4Materials 0) f.Strain i j
      = (stressDecomposition spectral EE nu p f).mate._Rank2Materials 1 i j
        + (stressDecomposition spectral EE nu p f).StressPos i j := by
  have hI4 : RankFourTensor.DoubleDot RankFourTensor.InitIdentitySymmetric4
      (RankFourTensor.DoubleDot (RankFourTensor.SetFromEandNu EE nu) f.Strain) i j
      = RankFourTensor.DoubleDot (RankFourTensor.SetFromEandNu EE nu) f.Strain i j := by
    rw [InitIdentitySymmetric4_doubleDot, SetFromEandNu_doubleDot, SetFromEandNu_doubleDot]
    simp only [RankTwoTensor.SetToIdentity, eq_comm]
    ring
  simp only [stressDecomposition, Function.update_same,
    Function.update_noteq (show (1 : ℕ) ≠ 2 by decide), RankFourTensor.DoubleDot4_doubleDot,
    RankFourTensor.DoubleDot_add, RankFourTensor.DoubleDot_smul, RankTwoTensor.scale,
    Pi.add_apply, Pi.sub_apply, Pi.smul_apply, smul_eq_mul, hI4]
  ring

theorem Miehe_rank4 [FloorRing K] (spectral : RankTwoTensor K → SpectralResult K) (sqrt : K → K)
    (p : GaussPoint K) (gpHist : ℕ → K) (self : MateSystem K) (h : 5 ≤ p.InputParams.length) :
    (MieheLinearElasticMaterial spectral sqrt p gpHist self).mate._Rank4Materials
      = (frameAfterDecomposition spectral p self).mate._Rank4Materials := by
  unfold MieheLinearElasticMaterial
  rw [if_neg (by omega)]

theorem frame_strain [FloorRing K] (spectral : RankTwoTensor K → SpectralResult K) (p : GaussPoint K)
    (self : MateSystem K) :
    (frameAfterDecomposition spectral p self).Strain = (setupFrame p self).Strain
      ∧ (frameAfterDecomposition spectral p self).mate._Rank2Materials 0
          = (setupFrame p self).Strain := by
  have h0 : (setupFrame p self).mate._Rank2Materials 0 = (setupFrame p self).Strain := by
    simp [setupFrame]
  rcases parseDecompositionMode_cases p.InputParams with hm | hm
  · rw [frameAfterDecomposition_of_strain_mode spectral p self hm]
    refine ⟨rfl, ?_⟩
    rw [← h0]
    simp [strainDecomposition]
  · rw [frameAfterDecomposition_of_stress_mode spectral p self hm]
    refine ⟨rfl, ?_⟩
    rw [← h0]
    simp [stressDecomposition]

/-- The stored total strain `_Rank2Materials[0]` of a completed call. -/
theorem Miehe_total_strain [FloorRing K] (spectral : RankTwoTensor K → SpectralResult K) (sqrt : K → K)
    (p : GaussPoint K) (gpHist : ℕ → K) (self : MateSystem K) (h : 5 ≤ p.InputParams.length) :
    (MieheLinearElasticMaterial spectral sqrt p gpHist self).mate._Rank2Materials 0
      = (setupFrame p self).Strain := by
  rw [← (frame_strain spectral p self).2]
  unfold MieheLinearElasticMaterial
  rw [if_neg (by omega)]
  simp only []
  rw [diagnostics_rank2_of_ne _ _ _ _ _ _ _ 0 (by decide),
    exposeHistory_rank2_of_ne _ _ _ _ _ 0 (by decide),
    historyUpdate_rank2_of_ne _ _ _ 0 (by decide)]

/-- In strain-based mode the stored tangent contracted with the stored strain is the stored
stress, for every input. -/
theorem Miehe_tangent_of_strain_mode [FloorRing K] (spectral : RankTwoTensor K → SpectralResult K)
    (sqrt : K → K) (p : GaussPoint K) (gpHist : ℕ → K) (self : MateSystem K)
    (h5 : 5 ≤ p.InputParams.length) (hm : parseDecompositionMode p.InputParams = 0)
    (i j : Fin 3) :
    RankFourTensor.DoubleDot
        ((MieheLinearElasticMaterial spectral sqrt p gpHist self).mate._Rank4Materials 0)
        ((MieheLinearElasticMaterial spectral sqrt p gpHist self).mate._Rank2Materials 0) i j
      = (MieheLinearElasticMaterial spectral sqrt p gpHist self).mate._Rank2Materials 1 i j := by
  rw [Miehe_rank4 spectral sqrt p gpHist self h5, Miehe_total_strain spectral sqrt p gpHist self h5,
    Miehe_stored_stress spectral sqrt p gpHist self h5,
    frameAfterDecomposition_of_strain_mode spectral p self hm]
  exact strainDecomposition_tangent spectral _ _ p (setupFrame p self)
    (setupFrame_strain_symm p self) i j

/-- In stress-based mode the stored tangent contracted with the stored strain exceeds the
stored stress by `StressPos`, for every input. -/
theorem Miehe_tangent_of_stress_mode [FloorRing K] (spectral : RankTwoTensor K → SpectralResult K)
    (sqrt : K → K) (p : GaussPoint K) (gpHist : ℕ → K) (self : MateSystem K)
    (h5 : 5 ≤ p.InputParams.length) (hm : parseDecompositionMode p.InputParams = 1)
    (i j : Fin 3) :
    RankFourTensor.DoubleDot
        ((MieheLinearElasticMaterial spectral sqrt p gpHist self).mate._Rank4Materials 0)
        ((MieheLinearElasticMaterial spectral sqrt p gpHist self).mate._Rank2Materials 0) i j
      = (MieheLinearElasticMaterial spectral sqrt p gpHist self).mate._Rank2Materials 1 i j
        + (frameAfterDecomposition spectral p self).StressPos i j := by
  rw [Miehe_rank4 spectral sqrt p gpHist self h5, Miehe_total_strain spectral sqrt p gpHist self h5,
    Miehe_stored_stress spectral sqrt p gpHist self h5,
    frameAfterDecomposition_of_stress_mode spectral p self hm]
  exact stressDecomposition_tangent spectral _ _ p (setupFrame p self) i j

/-- C15, evaluation at the failing input: for `E = 1`, `nu = 0.3`, strain
`diag(1, 1, 1/100)` and damage `1/2`, mode 0 stores a tangent whose contraction with the
strain is the stored stress, while in mode 1 component `(1,1)` of the contraction is
`1251/1000 * 1003/520` against a stored stress of `251/1000 * 1003/520`: the tangent of
mode 1 carries the undegraded `I4Sym` instead of the negative projection. -/
theorem stress_mode_tangent_mismatch :
    (∀ i j, RankFourTensor.DoubleDot
          ((MieheLinearElasticMaterial axisSpectral Rat.sqrt (triaxialPoint (3 / 10) 0)
            (fun _ => 0) zeroBanks).mate._Rank4Materials 0)
          ((MieheLinearElasticMaterial axisSpectral Rat.sqrt (triaxialPoint (3 / 10) 0)
            (fun _ => 0) zeroBanks).mate._Rank2Materials 0) i j
        = (MieheLinearElasticMaterial axisSpectral Rat.sqrt (triaxialPoint (3 / 10) 0)
            (fun _ => 0) zeroBanks).mate._Rank2Materials 1 i j)
      ∧ parseDecompositionMode (triaxialPoint (3 / 10) 1).InputParams = 1
      ∧ RankFourTensor.DoubleDot
          ((MieheLinearElasticMaterial axisSpectral Rat.sqrt (triaxialPoint (3 / 10) 1)
            (fun _ => 0) zeroBanks).mate._Rank4Materials 0)
          ((MieheLinearElasticMaterial axisSpectral Rat.sqrt (triaxialPoint (3 / 10) 1)
            (fun _ => 0) zeroBanks).mate._Rank2Materials 0) 0 0
        = 1251 / 1000 * (1003 / 520)
      ∧ (MieheLinearElasticMaterial axisSpectral Rat.sqrt (triaxialPoint (3 / 10) 1)
          (fun _ => 0) zeroBanks).mate._Rank2Materials 1 0 0 = 251 / 1000 * (1003 / 520)
      ∧ RankFourTensor.DoubleDot
          ((MieheLinearElasticMaterial axisSpectral Rat.sqrt (triaxialPoint (3 / 10) 1)
            (fun _ => 0) zeroBanks).mate._Rank4Materials 0)
          ((MieheLinearElasticMaterial axisSpectral Rat.sqrt (triaxialPoint (3 / 10) 1)
            (fun _ => 0) zeroBanks).mate._Rank2Materials 0)
        ≠ (MieheLinearElasticMaterial axisSpectral Rat.sqrt (triaxialPoint (3 / 10) 1)
            (fun _ => 0) zeroBanks).mate._Rank2Materials 1 := by
  have hm0 := triaxial_mode_zero (3 / 10)
  have hm1 := triaxial_mode_one (3 / 10)
  have h5 : 5 ≤ (triaxialPoint (3 / 10) 1).InputParams.length := by decide
  have hspos := elastic_stress_eigval_nonneg 1 (3 / 10)
    (setupFrame (triaxialPoint (3 / 10) 1) zeroBanks).Strain _ _
    (triaxial_strain_isSpectralProjection _ _) (triaxial_stress_isSpectralProjection _ _)
    (fun a => (triaxial_strain_eigval_pos _ _ a).le)
    (by norm_num [lameLambda]) (by norm_num [lameMu])
  obtain ⟨b1, -, -, -, b5⟩ := stressDecomposition_of_nonneg axisSpectral 1 (3 / 10)
    (triaxialPoint (3 / 10) 1) (setupFrame (triaxialPoint (3 / 10) 1) zeroBanks)
    (triaxial_stress_isSpectralProjection _ _) hspos
  have f20 : (2 : Fin 3) ≠ 0 := by decide
  have f21 : (2 : Fin 3) ≠ 1 := by decide
  have hS00 : RankFourTensor.DoubleDot (RankFourTensor.SetFromEandNu 1 (3 / 10))
      (setupFrame (triaxialPoint (3 / 10) 1) zeroBanks).Strain 0 0 = 1003 / 520 := by
    rw [SetFromEandNu_doubleDot, setupFrame_strain_triaxial]
    norm_num [RankTwoTensor.Trace, RankTwoTensor.SetToIdentity, Fin.sum_univ_three, lameLambda,
      lameMu, f20, f20.symm, f21, f21.symm]
  have hd : degradation (clampDamage ((triaxialPoint (3 / 10) 1).gpU
      (triaxialPoint (3 / 10) 1).nDim)) = 251 / 1000 := by
    norm_num [degradation, clampDamage, kResidual, triaxialPoint]
  have v1 : (MieheLinearElasticMaterial axisSpectral Rat.sqrt (triaxialPoint (3 / 10) 1)
      (fun _ => 0) zeroBanks).mate._Rank2Materials 1 0 0 = 251 / 1000 * (1003 / 520) := by
    rw [Miehe_stored_stress _ _ _ _ _ h5, frameAfterDecomposition_of_stress_mode _ _ _ hm1]
    have e := b5 0 0
    rw [hd, hS00] at e
    exact e
  have v2 : RankFourTensor.DoubleDot
      ((MieheLinearElasticMaterial axisSpectral Rat.sqrt (triaxialPoint (3 / 10) 1)
        (fun _ => 0) zeroBanks).mate._Rank4Materials 0)
      ((MieheLinearElasticMaterial axisSpectral Rat.sqrt (triaxialPoint (3 / 10) 1)
        (fun _ => 0) zeroBanks).mate._Rank2Materials 0) 0 0 = 1251 / 1000 * (1003 / 520) := by
    rw [Miehe_tangent_of_stress_mode _ _ _ _ _ h5 hm1, v1,
      frameAfterDecomposition_of_stress_mode _ _ _ hm1]
    have e := congrFun (congrFun b1 0) 0
    rw [hS00] at e
    have e2 : (stressDecomposition axisSpectral
        ((triaxialPoint (3 / 10) 1).InputParams.getD 0 0)
        ((triaxialPoint (3 / 10) 1).InputParams.getD 1 0) (triaxialPoint (3 / 10) 1)
        (setupFrame (triaxialPoint (3 / 10) 1) zeroBanks)).StressPos 0 0 = 1003 / 520 := e
    rw [e2]
    norm_num
  refine ⟨?_, hm1, v2, v1, ?_⟩
  · intro i j
    exact Miehe_tangent_of_strain_mode _ _ _ _ _ (by decide) hm0 i j
  · intro h
    have h00 := congrFun (congrFun h 0) 0
    rw [v1, v2] at h00
    norm_num at h00

/-! ### The elastic energies -/

end AsFem
